import Mathlib

/-!
# RTMS prototype: navigation router, session store and network client

A shallow embedding of `src/js/app.js` (class `RTMSApp`), `src/js/auth.js`
(class `AuthSystem`) and `src/js/api.js` (class `APIService`).

Conventions of the embedding.

* JavaScript values that come from outside (JSON bodies, stored identity) are
  values of `JsVal`; property access, truthiness and string coercion follow
  the language.
* The document is the list of its elements in document order.  Only what the
  scripts read or write is kept of an element: its id, its class list, its
  `href` attribute and its markup.
* Every method is a function from the world before the call to the world after
  it, together with the way the call ended (a value, or a thrown error).  The
  world after a throw keeps every write made before the throw.
* An asynchronous call that the caller does not await is recorded in
  `World.pending` and runs later, as one step, through `runTask`.
-/

namespace RTMS

/-! ## JavaScript values -/

mutual
/-- A JavaScript value as far as JSON and the scripts need it.  Numbers are
the integers; the items of an array are kept in `JsFields` with unused keys. -/
inductive JsVal where
  | undefined
  | null
  | bool (b : Bool)
  | num (n : Int)
  | str (s : String)
  | arr (items : JsFields)
  | obj (fields : JsFields)
  deriving DecidableEq
/-- The own properties of an object, in insertion order. -/
inductive JsFields where
  | nil
  | cons (key : String) (val : JsVal) (rest : JsFields)
  deriving DecidableEq
end

/-- Own property lookup. -/
def JsFields.lookup : JsFields → String → JsVal
  | .nil, _ => .undefined
  | .cons k v rest, name => if k = name then v else rest.lookup name

/-- The number of entries. -/
def JsFields.size : JsFields → Nat
  | .nil => 0
  | .cons _ _ rest => rest.size + 1

/-- The entry at a position, `undefined` past the end. -/
def JsFields.nth : JsFields → Nat → JsVal
  | .nil, _ => .undefined
  | .cons _ v _, 0 => v
  | .cons _ _ rest, n + 1 => rest.nth n

/-- The language's `ToBoolean`. -/
def JsVal.truthy : JsVal → Bool
  | .undefined => false
  | .null => false
  | .bool b => b
  | .num n => n != 0
  | .str s => s != ""
  | .arr _ => true
  | .obj _ => true

mutual
/-- The language's `String(v)`, used by template literals, `new Error(v)` and
`localStorage.setItem`. -/
def JsVal.toStr : JsVal → String
  | .undefined => "undefined"
  | .null => "null"
  | .bool true => "true"
  | .bool false => "false"
  | .num n => toString n
  | .str s => s
  | .arr items => items.join
  | .obj _ => "[object Object]"
/-- The method `Array.prototype.join` with the comma: `null` and `undefined`
items give the empty string. -/
def JsFields.join : JsFields → String
  | .nil => ""
  | .cons _ .undefined .nil => ""
  | .cons _ .null .nil => ""
  | .cons _ v .nil => v.toStr
  | .cons _ .undefined rest => "," ++ rest.join
  | .cons _ .null rest => "," ++ rest.join
  | .cons _ v rest => v.toStr ++ "," ++ rest.join
end

/-- The value of a run of decimal digits, `none` when another character occurs. -/
def digitsToNat : List Char → Nat → Option Nat
  | [], acc => some acc
  | c :: cs, acc => if c.isDigit then digitsToNat cs (acc * 10 + (c.toNat - 48)) else none

/-- The array index that a property name denotes: the name is the canonical
decimal numeral of the index (no leading zero). -/
def parseIndex (name : String) : Option Nat :=
  match name.toList with
  | [] => none
  | ['0'] => some 0
  | '0' :: _ => none
  | cs => digitsToNat cs 0

/-- Property read `v.name` or `v[name]`: a `TypeError` on `undefined` and
`null` (the error carries the message of the engine); the own property of an
object; `length` and the indices of an array and of a string; `undefined`
otherwise. -/
def JsVal.getProp (v : JsVal) (name : String) : Except String JsVal :=
  match v with
  | .undefined => .error ("Cannot read properties of undefined (reading '" ++ name ++ "')")
  | .null => .error ("Cannot read properties of null (reading '" ++ name ++ "')")
  | .obj fs => .ok (fs.lookup name)
  | .arr items =>
    if name = "length" then .ok (.num items.size)
    else match parseIndex name with
      | some i => .ok (items.nth i)
      | none => .ok .undefined
  | .str s =>
    if name = "length" then .ok (.num s.length)
    else match parseIndex name with
      | some i => .ok (match s.toList.get? i with
          | some c => .str (String.singleton c)
          | none => .undefined)
      | none => .ok .undefined
  | _ => .ok .undefined

/-- The comparison `v > 0` for a number or a boolean; any other value is
taken to compare false. -/
def JsVal.gtZero : JsVal → Bool
  | .num n => decide (0 < n)
  | .bool b => b
  | _ => false

/-- The operator `a || b` on values. -/
def JsVal.orElse (a b : JsVal) : JsVal := if a.truthy then a else b

/-- The method `String.prototype.includes`. -/
def includes (s needle : String) : Bool :=
  s.toList.tails.any (fun t => needle.toList.isPrefixOf t)

/-! ## The document -/

/-- An element of the document. -/
structure Element where
  id : String
  classes : List String
  href : Option String
  html : String
  deriving DecidableEq, Repr

/-- The method `classList.add`. -/
def Element.addClass (e : Element) (c : String) : Element :=
  if c ∈ e.classes then e else { e with classes := e.classes ++ [c] }

/-- The method `classList.remove`. -/
def Element.removeClass (e : Element) (c : String) : Element :=
  { e with classes := e.classes.filter (fun x => x != c) }

/-- The test behind a class selector such as `.page`. -/
def Element.hasClass (e : Element) (c : String) : Bool := e.classes.contains c

/-- The call `document.getElementById`.  An element without an `id` attribute
has the id `""`, and the empty id finds nothing. -/
def getElementById (dom : List Element) (id : String) : Option Element :=
  if id = "" then none else dom.find? (fun e => e.id == id)

/-- Apply `f` to the first element that satisfies `p`: a write through the
reference that `getElementById` or `querySelector` returned. -/
def updateFirst (p : Element → Bool) (f : Element → Element) : List Element → List Element
  | [] => []
  | e :: rest => if p e then f e :: rest else e :: updateFirst p f rest

/-- The loop `document.querySelectorAll(sel).forEach(e => e.classList.remove(c))`
for a class selector `sel`. -/
def removeClassFromAll (sel c : String) (dom : List Element) : List Element :=
  dom.map (fun e => if e.hasClass sel then e.removeClass c else e)

/-! ## The world -/

/-- How a call ended. -/
inductive Outcome (α : Type) where
  | returned (a : α)
  | threw (message : String)
  deriving DecidableEq

/-- An outgoing HTTP request, as handed to `fetch`. -/
structure Request where
  url : String
  method : String
  headers : List (String × String)
  body : Option String
  deriving DecidableEq, Repr

/-- What `fetch` yields: a rejection with its message, or a response with its
status line and the way `response.json()` ends (the parsed body, or the
`SyntaxError` of a body that is not JSON). -/
inductive FetchResult where
  | networkError (msg : String)
  | response (status : Nat) (statusText : String) (body : Outcome JsVal)
  deriving DecidableEq

/-- An asynchronous call that was started and not awaited. -/
inductive Task where
  | logout
  | updateNotifications
  | verifyToken (token : String)
  deriving DecidableEq, Repr

/-- The fields of the `AuthSystem` instance. -/
structure Auth where
  currentUser : JsVal
  userRole : JsVal
  loginType : String
  deriving DecidableEq

/-- The fields of the `APIService` instance and what it handed to the platform. -/
structure Api where
  /-- The field `APIService.token`. -/
  token : JsVal
  /-- The requests handed to `fetch`, newest first. -/
  sent : List Request
  /-- The URLs of the event streams opened by `setupRealtime`, newest first. -/
  streams : List String
  deriving DecidableEq

/-- What the router works on: its field `currentPage`, the document and the
session history. -/
structure Nav where
  /-- The field `RTMSApp.currentPage`. -/
  currentPage : String
  /-- The elements of the document, in document order. -/
  dom : List Element
  /-- The pages of the entries pushed with `history.pushState`, newest first. -/
  history : List String
  /-- The URL fragment given to the last `history.pushState`. -/
  hash : String
  deriving DecidableEq

/-- The theme: the field `RTMSApp.glowMode` and `document.body.className`. -/
structure Theme where
  glowMode : String
  bodyClass : String
  deriving DecidableEq

/-- The part of the page that `auth.js` drives. -/
structure Ui where
  /-- Whether `#publicActions` carries the class `hidden`. -/
  publicActionsHidden : Bool
  /-- Whether `#authenticatedActions` carries the class `hidden`. -/
  authenticatedActionsHidden : Bool
  /-- Whether `#publicNavMenu` carries the class `hidden`. -/
  publicNavHidden : Bool
  /-- Whether `#studentNavMenu` carries the class `hidden`. -/
  studentNavHidden : Bool
  /-- Whether `#staffNavMenu` carries the class `hidden`. -/
  staffNavHidden : Bool
  /-- Whether `#loginModal` carries the class `hidden`. -/
  loginModalHidden : Bool
  /-- Whether the submit button of the login form is in its loading state. -/
  loginLoading : Bool
  /-- The text of `#userName`. -/
  userNameText : String
  /-- The text of `#userRole`. -/
  userRoleText : String
  /-- The `src` of `#avatarImage`, once set. -/
  avatarSrc : Option String
  /-- The text of `#avatarInitials`. -/
  avatarInitials : String
  /-- The text of `#notificationBadge`. -/
  badgeText : String
  /-- Whether `#notificationBadge` carries the class `hidden`. -/
  badgeHidden : Bool
  /-- The toasts shown so far (message, type), newest first. -/
  toasts : List (String × String)
  /-- How many times `showLoginModal` ran. -/
  loginModalShown : Nat
  deriving DecidableEq

/-- Everything the three scripts read or write. -/
structure World where
  auth : Auth
  api : Api
  nav : Nav
  theme : Theme
  ui : Ui
  /-- The entries of `localStorage`. -/
  storage : List (String × String)
  /-- Whether `window.app` is bound to the router instance. -/
  windowApp : Bool
  /-- The value of `navigator.onLine`. -/
  online : Bool
  /-- The asynchronous calls started and not awaited, oldest first. -/
  pending : List Task
  /-- The lines written with `console.warn`, newest first. -/
  warnings : List String
  /-- The events handed to `document.dispatchEvent` (type and detail), newest
  first. -/
  dispatched : List (String × JsVal)
  /-- How many times `updateNavLinksForRole` attached its click listeners to
  the navigation links. -/
  gateListeners : Nat
  deriving DecidableEq

/-- The world after a call, and how the call ended. -/
structure Res (α : Type) where
  world : World
  out : Outcome α

/-- Sequencing: the second step runs only when the first returned. -/
def Res.andThen {α β : Type} (r : Res α) (k : α → World → Res β) : Res β :=
  match r.out with
  | .returned a => k a r.world
  | .threw e => ⟨r.world, .threw e⟩

/-! ## The router (`RTMSApp`) -/

/-- The method `RTMSApp.requiresAuth`. -/
def requiresAuth (page : String) : Bool :=
  ["dashboard", "submissions", "profile", "admin-dashboard", "manage-students",
   "manage-challenges", "manage-chapters", "analytics", "settings"].contains page

/-- The method `RTMSApp.requiresStaffRole`. -/
def requiresStaffRole (page : String) : Bool :=
  ["admin-dashboard", "manage-students", "manage-challenges", "manage-chapters",
   "analytics", "settings"].contains page

/-- One cell of the calendar, the body of the loop of `generateCalendarDays`. -/
def calendarDay (i : Nat) : String :=
  let isToday := i == 16
  let hasEvent := [18, 22, 25].contains i
  let dayClass := "calendar-day " ++ (if isToday then "today" else "") ++ " " ++
    (if hasEvent then "has-event" else "")
  "<div class=\"" ++ dayClass ++ "\">" ++ toString i ++
    (if hasEvent then "<div class=\"event-pill\"></div>" else "") ++ "</div>"

/-- The method `RTMSApp.generateCalendarDays`: the cells of the days 1 to 31. -/
def generateCalendarDays : String :=
  (List.range' 1 31).foldl (fun days i => days ++ calendarDay i) ""

/-- The ids that have a case in the switch of `loadPageContent`, in the order
of the cases. -/
def builderIds : List String :=
  ["join", "dashboard", "challenges", "showcase", "sponsors", "chapters", "merch",
   "calendar", "policies", "styleguide", "admin-dashboard", "manage-students",
   "manage-challenges", "submissions", "profile"]

/-- The markup a loader hands to `createPage`.  Each loader passes one template
literal; it is a constant of the script (no loader reads the session), and only
the calendar template has a computed part, `generateCalendarDays`.  The
literals are abbreviated here to one line of each; the elements of a template
that carry an `id` or an `href` are listed in `pageDescendants`. -/
def pageTemplate (id : String) : String :=
  if id = "join" then "<h1 class=\"join-title\">Join the Club</h1>"
  else if id = "dashboard" then "<div class=\"dashboard-title\">Welcome back, John!</div>"
  else if id = "challenges" then "<h1 class=\"section-title\">Challenges</h1>"
  else if id = "showcase" then "<div class=\"section-title\">Student Showcase</div>"
  else if id = "sponsors" then
    "<div class=\"section-title\">Power a chapter. Boost student makers.</div>"
  else if id = "chapters" then "<div class=\"section-title\">Chapters Across the Globe</div>"
  else if id = "merch" then "<div class=\"section-title\">RTMS Merch</div>"
  else if id = "calendar" then
    "<div class=\"section-title\">Event Calendar</div>" ++ generateCalendarDays
  else if id = "policies" then "<h3>Table of Contents</h3>"
  else if id = "styleguide" then "<div class=\"section-title\">Design System</div>"
  else if id = "admin-dashboard" then "<h1 class=\"section-title\">Admin Dashboard</h1>"
  else if id = "manage-students" then "<h1 class=\"section-title\">Manage Students</h1>"
  else if id = "manage-challenges" then "<h1 class=\"section-title\">Manage Challenges</h1>"
  else if id = "submissions" then "<div class=\"section-title\">My Submissions</div>"
  else if id = "profile" then "<span id=\"profileInitials\">JS</span>"
  else ""

/-- The method `RTMSApp.createPage`. -/
def createPage (id content : String) : Element :=
  { id := id, classes := ["page", "page-" ++ id], href := none, html := content }

/-- An element inside a page template, as far as the scripts can reach it:
its `id`, its classes and its `href`.  Its own markup is part of the markup of
the page. -/
def inner (id : String) (classes : List String) (href : Option String) : Element :=
  { id := id, classes := classes, href := href, html := "" }

/-- The elements that the template of a page brings into the document besides
the page itself: those with an `id` or an `href` attribute, in the order of
the template.  No element of a template has the class `page`, `nav-link` or
`main`. -/
def pageDescendants (id : String) : List Element :=
  if id = "join" then
    [inner "firstName" ["input"] none, inner "lastName" ["input"] none,
     inner "email" ["input"] none, inner "school" ["input"] none,
     inner "experience" ["input"] none]
  else if id = "policies" then
    [inner "" [] (some "#code-of-conduct"), inner "" [] (some "#privacy-policy"),
     inner "" [] (some "#terms-of-service"), inner "" [] (some "#academic-integrity"),
     inner "code-of-conduct" [] none, inner "privacy-policy" [] none,
     inner "terms-of-service" [] none, inner "academic-integrity" [] none]
  else if id = "admin-dashboard" then
    [inner "exportDataBtn" ["btn", "btn-primary"] none,
     inner "systemSettingsBtn" ["btn", "btn-secondary"] none]
  else if id = "manage-students" then
    [inner "studentSearch" ["input"] none, inner "addStudentBtn" ["btn", "btn-primary"] none,
     inner "statusFilter" ["input"] none, inner "chapterFilter" ["input"] none,
     inner "clearFilters" ["btn", "btn-ghost"] none, inner "studentsTableBody" [] none]
  else if id = "manage-challenges" then
    [inner "createChallengeBtn" ["btn", "btn-primary"] none]
  else if id = "submissions" then
    [inner "" ["btn", "btn-ghost", "btn-small"] (some "#"),
     inner "" ["btn", "btn-ghost", "btn-small"] (some "#"),
     inner "" ["btn", "btn-ghost", "btn-small"] (some "#"),
     inner "" ["btn", "btn-ghost", "btn-small"] (some "#")]
  else if id = "profile" then
    [inner "profileAvatar" ["hidden"] none, inner "profileInitials" [] none,
     inner "editAvatarBtn" ["avatar-edit-btn"] none, inner "avatarInput" ["hidden"] none,
     inner "profileName" ["profile-name"] none, inner "profileRole" ["profile-role"] none,
     inner "profileChapter" ["profile-chapter"] none,
     inner "personalTab" ["tab-content", "active"] none,
     inner "personalInfoForm" ["profile-form"] none, inner "firstName" ["input"] none,
     inner "lastName" ["input"] none, inner "email" ["input"] none, inner "bio" ["input"] none,
     inner "skillInput" ["input"] none, inner "accountTab" ["tab-content"] none,
     inner "accountSettingsForm" ["profile-form"] none, inner "currentPassword" ["input"] none,
     inner "newPassword" ["input"] none, inner "confirmPassword" ["input"] none,
     inner "notificationsTab" ["tab-content"] none]
  else []

/-- The common shape of the loaders `loadJoinPage`, `loadDashboardPage`, ...:
return when an element with the id exists, else create the page and append it
to the `.main` element (a `TypeError` when there is none).  The new page goes
to the end of the document list, followed by the elements inside it. -/
def loadPage (id : String) (w : World) : Res Unit :=
  match getElementById w.nav.dom id with
  | some _ => ⟨w, .returned ()⟩
  | none =>
    if w.nav.dom.any (fun e => e.hasClass "main") then
      ⟨{ w with nav := { w.nav with
          dom := w.nav.dom ++ createPage id (pageTemplate id) :: pageDescendants id } },
        .returned ()⟩
    else
      ⟨w, .threw "Cannot read properties of null (reading 'appendChild')"⟩

/-- The method `RTMSApp.loadPageContent`: the loader of the id when the switch
has a case for it, nothing otherwise. -/
def loadPageContent (pageName : String) (w : World) : Res Unit :=
  if builderIds.contains pageName then loadPage pageName w else ⟨w, .returned ()⟩

/-- The first half of `showPage`: "Hide all pages", then "Show target page". -/
def activate (pageName : String) (n : Nav) : Nav :=
  let dom1 := removeClassFromAll "page" "active" n.dom
  match getElementById dom1 pageName with
  | some _ =>
    { n with
      dom := updateFirst (fun e => e.id == pageName) (fun e => e.addClass "active") dom1
      currentPage := pageName }
  | none => { n with dom := dom1 }

/-- The second half of `showPage`, "Update navigation": the link whose `href`
is the page gets the class `active`. -/
def markLink (pageName : String) (n : Nav) : Nav :=
  let dom1 := removeClassFromAll "nav-link" "active" n.dom
  let isLink := fun (e : Element) => e.href == some ("#" ++ pageName)
  { n with dom := updateFirst isLink (fun e => e.addClass "active") dom1 }

/-- The method `RTMSApp.showPage`.  Page names are taken to be free of the
characters that end a quoted attribute selector. -/
def showPage (pageName : String) (w : World) : Res Unit :=
  -- the last statement: "Load page-specific content"
  loadPageContent pageName { w with nav := markLink pageName (activate pageName w.nav) }

/-- The method `RTMSApp.navigateToPage`. -/
def navigateToPage (pageName : String) (w : World) : Res Unit :=
  (showPage pageName w).andThen fun _ w1 =>
    ⟨{ w1 with nav := { w1.nav with history := pageName :: w1.nav.history,
                                    hash := "#" ++ pageName } }, .returned ()⟩

/-- The ids of the elements that carry both the class `page` and the class
`active`. -/
def activePages (w : World) : List String :=
  (w.nav.dom.filter (fun e => e.hasClass "page" && e.hasClass "active")).map (fun e => e.id)

/-! ## Local storage -/

/-- The call `localStorage.getItem`: `none` stands for `null`. -/
def getItem (storage : List (String × String)) (key : String) : Option String :=
  storage.lookup key

/-- The call `localStorage.removeItem`. -/
def removeItem (storage : List (String × String)) (key : String) : List (String × String) :=
  storage.filter (fun kv => kv.1 != key)

/-- The call `localStorage.setItem`. -/
def setItem (storage : List (String × String)) (key value : String) : List (String × String) :=
  removeItem storage key ++ [(key, value)]

/-- Truthiness of what `getItem` returned: a string that is not empty. -/
def truthyItem : Option String → Bool
  | some s => s != ""
  | none => false

/-! ## The network client (`APIService`)

The methods `login` and `logout` exist in `APIService` and in `AuthSystem`;
those of `APIService`, and its other endpoint methods, carry the class name
here. -/

/-- What the scripts take from the platform: `JSON.parse` (`none` is a
`SyntaxError`), `JSON.stringify`, the backend (its answer to a request, given
the requests sent before), whether `EventSource` is defined, and the values of
`Math.random().toString(36)` and `Date.now()` for the simulated login. -/
structure Env where
  parse : String → Option JsVal
  stringify : JsVal → String
  backend : List Request → Request → FetchResult
  eventSource : Bool
  randomId : String
  now : Nat

/-- The second argument of `request`; `none` is a property that is absent. -/
structure Options where
  method : Option String
  headers : Option (List (String × String))
  body : Option String
  deriving DecidableEq

/-- Assignment `headers[key] = value` on a headers object. -/
def setHeader (headers : List (String × String)) (key value : String) :
    List (String × String) :=
  if headers.any (fun kv => kv.1 == key) then
    headers.map (fun kv => if kv.1 == key then (key, value) else kv)
  else headers ++ [(key, value)]

/-- The `config` that `request` hands to `fetch`: the spread of `options`
comes last, so `options.headers` replaces the default headers when present;
then the bearer token is written when `this.token` is truthy. -/
def buildConfig (token : JsVal) (url : String) (o : Options) : Request :=
  let headers := o.headers.getD [("Content-Type", "application/json")]
  { url := url
    method := o.method.getD "GET"
    headers := if token.truthy then setHeader headers "Authorization" ("Bearer " ++ token.toStr)
      else headers
    body := o.body }

/-- Whether `response.ok` holds. -/
def statusOk (status : Nat) : Bool := decide (200 ≤ status) && decide (status ≤ 299)

/-- The `try` block of `request`, from the answer of `fetch` on. -/
def requestTry : FetchResult → Outcome JsVal
  | .networkError msg => .threw msg
  | .response status statusText body =>
    if !statusOk status then
      -- const errorData = await response.json().catch(() => ({}))
      let errorData := match body with
        | .returned v => v
        | .threw _ => JsVal.obj .nil
      match errorData.getProp "message" with
      | .error e => .threw e
      | .ok m =>
        .threw (m.orElse (.str ("HTTP " ++ toString status ++ ": " ++ statusText))).toStr
    else if status != 204 then body
    else .returned (.obj (.cons "success" (.bool true) .nil))

/-- The test of the branch "Handle auth errors" in the `catch` block. -/
def isAuthError (message : String) : Bool :=
  includes message "401" || includes message "Unauthorized"

/-- The answer of `fetch` to the request that `request` would send now. -/
def fetchAnswer (env : Env) (endpoint : String) (o : Options) (w : World) : FetchResult :=
  env.backend w.api.sent (buildConfig w.api.token ("/api" ++ endpoint) o)

/-- The method `APIService.request`.  The forced logout of the `catch` block,
`window.auth?.logout()`, is not awaited: it is recorded as pending. -/
def request (env : Env) (endpoint : String) (o : Options) (w : World) : Res JsVal :=
  let config := buildConfig w.api.token ("/api" ++ endpoint) o
  let w1 := { w with api := { w.api with sent := config :: w.api.sent } }
  match requestTry (fetchAnswer env endpoint o w) with
  | .returned v => ⟨w1, .returned v⟩
  | .threw message =>
    if !w1.online then
      ⟨w1, .threw "Network connection failed. Please check your internet connection."⟩
    else if isAuthError message then
      ⟨{ w1 with pending := w1.pending ++ [Task.logout] },
        .threw "Session expired. Please log in again."⟩
    else ⟨w1, .threw message⟩

/-- The options of the request of `APIService.login`. -/
def loginOptions (env : Env) (credentials : JsVal) : Options :=
  { method := some "POST", headers := none, body := some (env.stringify credentials) }

/-- The method `APIService.login`. -/
def APIService.login (env : Env) (credentials : JsVal) (w : World) : Res JsVal :=
  (request env "/auth/login" (loginOptions env credentials) w).andThen fun response w1 =>
    match response.getProp "token" with
    | .error e => ⟨w1, .threw e⟩
    | .ok token =>
      ⟨if token.truthy then { w1 with api := { w1.api with token := token } } else w1,
        .returned response⟩

/-- The method `APIService.socialLogin`: it resolves, after the delay, with a
made-up identity. -/
def APIService.socialLogin (env : Env) (provider userType : String) : JsVal :=
  .obj (.cons "success" (.bool true)
    (.cons "user" (.obj
      (.cons "id" (.str env.randomId)
      (.cons "firstName" (.str "Social")
      (.cons "lastName" (.str "User")
      (.cons "email" (.str ("user@" ++ provider ++ ".com"))
      (.cons "role" (.str userType)
      (.cons "avatar" (.str ("https://api.dicebear.com/7.x/avataaars/svg?seed=" ++ provider))
      .nil)))))))
    (.cons "token" (.str ("demo_social_token_" ++ toString env.now)) .nil)))

/-- The method `APIService.logout`. -/
def APIService.logout (env : Env) (w : World) : Res Unit :=
  (request env "/auth/logout" { method := some "POST", headers := none, body := none } w).andThen
  fun _ w1 => ⟨{ w1 with api := { w1.api with token := .null } }, .returned ()⟩

/-- The method `APIService.verifyToken`. -/
def APIService.verifyToken (env : Env) (token : String) (w : World) : Res JsVal :=
  request env "/auth/verify"
    { method := none, headers := some [("Authorization", "Bearer " ++ token)], body := none } w

/-- The method `APIService.getNotifications`. -/
def APIService.getNotifications (env : Env) (w : World) : Res JsVal :=
  request env "/notifications" { method := none, headers := none, body := none } w

/-- The method `APIService.setupRealtime`. -/
def setupRealtime (env : Env) (token : JsVal) (w : World) : World :=
  if env.eventSource then
    { w with api := { w.api with streams := ("/api/stream?token=" ++ token.toStr) :: w.api.streams } }
  else w

/-! ## The session store (`AuthSystem`)

The elements that `auth.js` looks up by id (`#publicActions`, `#loginModal`,
`#toastContainer`, ...) are taken to be present: its constructor attaches
listeners to them.  `window.api` and `window.auth` are bound by the
initialisers of `api.js` and `auth.js`. -/

/-- The method `AuthSystem.isAuthenticated`. -/
def isAuthenticated (w : World) : Bool := w.auth.currentUser.truthy

/-- The method `AuthSystem.isStudent`. -/
def isStudent (w : World) : Bool := w.auth.userRole == .str "student"

/-- The method `AuthSystem.isStaff`. -/
def isStaff (w : World) : Bool := w.auth.userRole == .str "staff"

/-- The method `AuthSystem.getAuthToken`. -/
def getAuthToken (w : World) : Option String := getItem w.storage "rtms_token"

/-- The method `AuthSystem.showToast`. -/
def showToast (message type : String) (w : World) : World :=
  { w with ui := { w.ui with toasts := (message, type) :: w.ui.toasts } }

/-- The method `AuthSystem.showLoginModal`. -/
def showLoginModal (w : World) : World :=
  { w with ui := { w.ui with loginModalHidden := false,
                             loginModalShown := w.ui.loginModalShown + 1 } }

/-- The method `AuthSystem.setLoginLoading`. -/
def setLoginLoading (loading : Bool) (w : World) : World :=
  { w with ui := { w.ui with loginLoading := loading } }

/-- The method `AuthSystem.hideLoginModal`. -/
def hideLoginModal (w : World) : World :=
  setLoginLoading false { w with ui := { w.ui with loginModalHidden := true } }

/-- The method `AuthSystem.switchLoginTab`. -/
def switchLoginTab (type : String) (w : World) : World :=
  { w with auth := { w.auth with loginType := type } }

/-- The avatar part of `updateAuthUI`: the image when the user has one, else
the upper-cased initials (upper-casing is that of the ASCII letters). -/
def setAvatar (firstName lastName avatar : JsVal) (ui : Ui) : Outcome Ui :=
  if avatar.truthy then .returned { ui with avatarSrc := some avatar.toStr }
  else match firstName.getProp "0", lastName.getProp "0" with
    | .ok f, .ok l => .returned { ui with avatarInitials := (f.toStr ++ l.toStr).toUpper }
    | .error e, _ => .threw e
    | .ok _, .error e => .threw e

/-- The method `AuthSystem.updateAuthUI`.  Its last call, `updateNotifications`,
is not awaited: it is recorded as pending. -/
def updateAuthUI (w : World) : Res Unit :=
  -- Show authenticated actions, hide public actions
  let ui1 := { w.ui with publicActionsHidden := true, authenticatedActionsHidden := false }
  let user := w.auth.currentUser
  match user.getProp "firstName", user.getProp "lastName", user.getProp "role",
      user.getProp "avatar" with
  | .ok firstName, .ok lastName, .ok role, .ok avatar =>
    let ui2 := { ui1 with
      userNameText := firstName.toStr ++ " " ++ lastName.toStr
      userRoleText := if role == .str "staff" then "Staff" else "Student" }
    -- Set avatar
    match setAvatar firstName lastName avatar ui2 with
    | .returned ui3 =>
      -- Update notifications
      ⟨{ w with ui := ui3, pending := w.pending ++ [Task.updateNotifications] }, .returned ()⟩
    | .threw e => ⟨{ w with ui := ui2 }, .threw e⟩
  | .error e, _, _, _ => ⟨{ w with ui := ui1 }, .threw e⟩
  | .ok _, .error e, _, _ => ⟨{ w with ui := ui1 }, .threw e⟩
  | .ok _, .ok _, .error e, _ => ⟨{ w with ui := ui1 }, .threw e⟩
  | .ok _, .ok _, .ok _, .error e => ⟨{ w with ui := ui1 }, .threw e⟩

/-- The method `AuthSystem.updateNavigation`. -/
def updateNavigation (w : World) : World :=
  -- Hide all nav menus
  let ui1 := { w.ui with publicNavHidden := true, studentNavHidden := true,
                         staffNavHidden := true }
  -- Show appropriate nav menu
  if w.auth.userRole == .str "staff" then { w with ui := { ui1 with staffNavHidden := false } }
  else { w with ui := { ui1 with studentNavHidden := false } }

/-- The method `AuthSystem.setAuthenticatedUser`. -/
def setAuthenticatedUser (env : Env) (user token : JsVal) (w : World) : Res Unit :=
  let w1 := { w with auth := { w.auth with currentUser := user } }
  match user.getProp "role" with
  | .error e => ⟨w1, .threw e⟩
  | .ok role =>
    let w2 := { w1 with auth := { w1.auth with userRole := role } }
    -- Store auth data
    let stored := setItem w2.storage "rtms_token" token.toStr
    let w3 := { w2 with storage := setItem stored "rtms_user" (env.stringify user) }
    -- Update UI
    (updateAuthUI w3).andThen fun _ w4 =>
      -- Set up real-time connections
      ⟨setupRealtime env token (updateNavigation w4), .returned ()⟩

/-- The method `AuthSystem.updateNotifications`. -/
def updateNotifications (env : Env) (w : World) : Res Unit :=
  let r := APIService.getNotifications env w
  match r.out with
  | .returned notifications =>
    let shown : Bool := match notifications.getProp "length" with
      | .ok len => notifications.truthy && len.gtZero
      | .error _ => false
    let text : String := match notifications.getProp "length" with
      | .ok len => len.toStr
      | .error _ => ""
    if shown then
      ⟨{ r.world with ui := { r.world.ui with badgeText := text, badgeHidden := false } },
        .returned ()⟩
    else ⟨{ r.world with ui := { r.world.ui with badgeHidden := true } }, .returned ()⟩
  | .threw e =>
    ⟨{ r.world with warnings := ("Failed to load notifications: " ++ e) :: r.world.warnings },
      .returned ()⟩

/-- The message of the `TypeError` raised by `window.app.navigateToPage` when
`window.app` is not bound. -/
def appUnbound : String :=
  "Cannot read properties of undefined (reading 'navigateToPage')"

/-- The call `window.app.navigateToPage(pageName)`. -/
def windowAppNavigate (pageName : String) (w : World) : Res Unit :=
  if w.windowApp then navigateToPage pageName w else ⟨w, .threw appUnbound⟩

/-- The local part of `AuthSystem.logout`, from "Clear local auth data" to
"Show public navigation". -/
def clearSession (w : World) : World :=
  { w with
    storage := removeItem (removeItem w.storage "rtms_token") "rtms_user"
    auth := { w.auth with currentUser := .null, userRole := .null }
    ui := { w.ui with
      publicActionsHidden := false
      authenticatedActionsHidden := true
      publicNavHidden := false
      studentNavHidden := true
      staffNavHidden := true } }

/-- The `try` and `catch` of `AuthSystem.logout`: the remote logout, whose
failure is logged and goes no further. -/
def logoutRemote (env : Env) (w : World) : World :=
  let r := APIService.logout env w
  match r.out with
  | .returned _ => r.world
  | .threw e => { r.world with warnings := ("Logout API call failed: " ++ e) :: r.world.warnings }

/-- The rest of `AuthSystem.logout`: clear, "Redirect to home", toast. -/
def logoutLocal (w : World) : Res Unit :=
  (windowAppNavigate "home" (clearSession w)).andThen fun _ w3 =>
    ⟨showToast "Logged out successfully" "success" w3, .returned ()⟩

/-- The method `AuthSystem.logout`. -/
def logout (env : Env) (w : World) : Res Unit :=
  logoutLocal (logoutRemote env w)

/-- The object `loginData` of `handleLogin`. -/
def loginData (email password userType : String) (rememberMe : Bool) : JsVal :=
  .obj (.cons "email" (.str email) (.cons "password" (.str password)
    (.cons "userType" (.str userType) (.cons "rememberMe" (.bool rememberMe) .nil))))

/-- The branch `if (response.success)` of `handleLogin`. -/
def loginSucceeded (env : Env) (user token : JsVal) (w : World) : Res Unit :=
  (setAuthenticatedUser env user token w).andThen fun _ w2 =>
    let w3 := showToast "Welcome back!" "success" (hideLoginModal w2)
    -- Redirect based on role
    match user.getProp "role" with
    | .ok role =>
      if role == .str "staff" then windowAppNavigate "admin-dashboard" w3
      else windowAppNavigate "dashboard" w3
    | .error e => ⟨w3, .threw e⟩

/-- The `try` block of `handleLogin`. -/
def handleLoginTry (env : Env) (email password : String) (rememberMe : Bool) (w : World) :
    Res Unit :=
  (APIService.login env (loginData email password w.auth.loginType rememberMe) w).andThen
  fun response w1 =>
    match response.getProp "success", response.getProp "user", response.getProp "token",
        response.getProp "message" with
    | .ok success, .ok user, .ok token, .ok message =>
      if success.truthy then loginSucceeded env user token w1
      else ⟨w1, .threw (message.orElse (.str "Login failed")).toStr⟩
    | .error e, _, _, _ => ⟨w1, .threw e⟩
    | .ok _, .error e, _, _ => ⟨w1, .threw e⟩
    | .ok _, .ok _, .error e, _ => ⟨w1, .threw e⟩
    | .ok _, .ok _, .ok _, .error e => ⟨w1, .threw e⟩

/-- The `catch` and `finally` blocks of `handleLogin`. -/
def handleLoginEnd (r : Res Unit) : Res Unit :=
  let w1 := match r.out with
    | .returned _ => r.world
    | .threw e =>
      showToast (if e != "" then e else "Login failed. Please try again.") "error" r.world
  ⟨setLoginLoading false w1, .returned ()⟩

/-- The method `AuthSystem.handleLogin`, with the values of the three inputs
of the login form. -/
def handleLogin (env : Env) (email password : String) (rememberMe : Bool) (w : World) :
    Res Unit :=
  handleLoginEnd (handleLoginTry env email password rememberMe (setLoginLoading true w))

/-- The method `AuthSystem.handleSocialLogin`. -/
def handleSocialLogin (env : Env) (provider : String) (w : World) : Res Unit :=
  let w0 := showToast ("Redirecting to " ++ provider ++ "...") "info" w
  let response := APIService.socialLogin env provider w0.auth.loginType
  let r : Res Unit :=
    match response.getProp "success", response.getProp "user", response.getProp "token" with
    | .ok success, .ok user, .ok token =>
      if success.truthy then
        (setAuthenticatedUser env user token w0).andThen fun _ w1 =>
          ⟨showToast ("Welcome via " ++ provider ++ "!") "success" (hideLoginModal w1),
            .returned ()⟩
      else ⟨w0, .returned ()⟩
    | .error e, _, _ => ⟨w0, .threw e⟩
    | .ok _, .error e, _ => ⟨w0, .threw e⟩
    | .ok _, .ok _, .error e => ⟨w0, .threw e⟩
  let w2 := match r.out with
    | .returned _ => r.world
    | .threw _ => showToast (provider ++ " login failed. Please try again.") "error" r.world
  ⟨w2, .returned ()⟩

/-- The method `AuthSystem.checkStoredAuth`.  The calls `setAuthenticatedUser`
and `logout` are not awaited here, so a throw inside them does not reach the
`catch` block: `setAuthenticatedUser` has no `await` and runs to its end or to
its throw at once; `verifyToken` and `logout` wait for the network and are
recorded as pending. -/
def checkStoredAuth (env : Env) (w : World) : World :=
  let token := getItem w.storage "rtms_token"
  let userData := getItem w.storage "rtms_user"
  if truthyItem token && truthyItem userData then
    match env.parse (userData.getD "") with
    | some user =>
      let w1 := (setAuthenticatedUser env user (.str (token.getD "")) w).world
      -- Verify token is still valid
      { w1 with pending := w1.pending ++ [Task.verifyToken (token.getD "")] }
    | none =>
      { w with
        warnings := "Invalid stored user data" :: w.warnings
        pending := w.pending ++ [Task.logout] }
  else w

/-- One pending call, run from its start to its end. -/
def runTask (env : Env) (task : Task) (w : World) : Res Unit :=
  match task with
  | .logout => logout env w
  | .updateNotifications => updateNotifications env w
  | .verifyToken token =>
    let r := APIService.verifyToken env token w
    match r.out with
    | .returned _ => ⟨r.world, .returned ()⟩
    | .threw _ => ⟨{ r.world with pending := r.world.pending ++ [Task.logout] }, .returned ()⟩

/-- Run the pending calls, oldest first, at most `fuel` of them. -/
def settle (env : Env) : Nat → World → World
  | 0, w => w
  | fuel + 1, w =>
    match w.pending with
    | [] => w
    | task :: rest => settle env fuel (runTask env task { w with pending := rest }).world

/-! ## The router's side of the session and of the history -/

/-- The method `RTMSApp.updateNavLinksForRole`: every navigation link gets one
more click listener, the one that checks `requiresAuth` and
`requiresStaffRole`. -/
def updateNavLinksForRole (w : World) : World :=
  { w with gateListeners := w.gateListeners + 1 }

/-- The method `RTMSApp.updateNavigationForAuth`. -/
def updateNavigationForAuth (w : World) : World :=
  if isAuthenticated w then updateNavLinksForRole w else w

/-- The method `RTMSApp.handleAuthLogin`. -/
def handleAuthLogin (_userData : JsVal) (w : World) : Res Unit :=
  let w1 := updateNavigationForAuth w
  -- Refresh current page content if it's auth-dependent
  if requiresAuth w1.nav.currentPage then loadPageContent w1.nav.currentPage w1
  else ⟨w1, .returned ()⟩

/-- The method `RTMSApp.handleAuthLogout`. -/
def handleAuthLogout (w : World) : Res Unit :=
  -- Redirect to home if user was on an auth-required page
  if requiresAuth w.nav.currentPage then navigateToPage "home" w else ⟨w, .returned ()⟩

/-- The listeners that `setupAuthIntegration` registers on the document, by
event type.  They run when an event of the type is dispatched. -/
def onDocumentEvent (type : String) (detail : JsVal) (w : World) : Res Unit :=
  if type = "auth:ready" then ⟨updateNavigationForAuth w, .returned ()⟩
  else if type = "auth:login" then handleAuthLogin detail w
  else if type = "auth:logout" then handleAuthLogout w
  else ⟨w, .returned ()⟩

/-- The `popstate` listener of `setupNavigation`, with the `state` of the
event.  The page of a state is a string (the states are those pushed by
`navigateToPage`); a page of another type is passed on in its string form. -/
def onPopState (state : JsVal) (w : World) : Res Unit :=
  if state.truthy then
    match state.getProp "page" with
    | .ok page => if page.truthy then showPage page.toStr w else ⟨w, .returned ()⟩
    | .error e => ⟨w, .threw e⟩
  else ⟨w, .returned ()⟩

/-! ## Sample states -/

/-- A small document: the `.main` container, the static `home` page (active)
and two navigation links. -/
def sampleDom : List Element :=
  [ { id := "", classes := ["main"], href := none, html := "" },
    { id := "home", classes := ["page", "active"], href := none, html := "" },
    { id := "", classes := ["nav-link", "active"], href := some "#home", html := "" },
    { id := "", classes := ["nav-link"], href := some "#dashboard", html := "" } ]

/-- The world once the three scripts have run their initialisers on
`sampleDom` with an empty `localStorage`: the constructors of `AuthSystem`,
`APIService` and `RTMSApp` set their fields, and `new RTMSApp()` is not
assigned to `window.app`. -/
def startWorld : World :=
  { auth := { currentUser := .null, userRole := .null, loginType := "student" }
    api := { token := .null, sent := [], streams := [] }
    nav := { currentPage := "home", dom := sampleDom, history := [], hash := "" }
    theme := { glowMode := "redesign", bodyClass := "" }
    ui := { publicActionsHidden := false, authenticatedActionsHidden := true,
            publicNavHidden := false, studentNavHidden := true, staffNavHidden := true,
            loginModalHidden := true, loginLoading := false, userNameText := "",
            userRoleText := "", avatarSrc := none, avatarInitials := "", badgeText := "",
            badgeHidden := true, toasts := [], loginModalShown := 0 }
    storage := []
    windowApp := false
    online := true
    pending := []
    warnings := []
    dispatched := []
    gateListeners := 0 }

/-- An identity record of a student. -/
def alice : JsVal :=
  .obj (.cons "id" (.str "u1") (.cons "firstName" (.str "Alice") (.cons "lastName" (.str "Doe")
    (.cons "email" (.str "alice@example.org") (.cons "role" (.str "student") .nil)))))

/-- The world of a student who is logged in. -/
def studentWorld : World :=
  { startWorld with
    auth := { currentUser := alice, userRole := .str "student", loginType := "student" }
    api := { token := .str "tok", sent := [], streams := [] }
    storage := [("rtms_token", "tok"), ("rtms_user", "alice")]
    ui := { startWorld.ui with
      publicActionsHidden := true
      authenticatedActionsHidden := false
      publicNavHidden := true
      studentNavHidden := false } }

/-- The body of a successful login answer for `alice`. -/
def aliceLoginBody : JsFields :=
  .cons "success" (.bool true) (.cons "user" alice (.cons "token" (.str "tok") .nil))

/-- A platform whose backend accepts: the login is answered with status 200
and `aliceLoginBody`, every other request with status 200 and the object
with `success` set.  `JSON.parse` is given on the text `null` only. -/
def acceptingEnv : Env :=
  { parse := fun s => if s = "null" then some .null else none
    stringify := fun v => v.toStr
    backend := fun _ req =>
      if req.url = "/api/auth/login" then .response 200 "OK" (.returned (.obj aliceLoginBody))
      else .response 200 "OK" (.returned (.obj (.cons "success" (.bool true) .nil)))
    eventSource := true
    randomId := "0.4fzyo82mvyr"
    now := 1700000000000 }

/-- A platform whose backend rejects the login with status 401 and a body
that is not JSON, and answers every other request with status 204. -/
def rejectingEnv : Env :=
  { acceptingEnv with
    backend := fun _ req =>
      if req.url = "/api/auth/login" then
        .response 401 "Unauthorized" (.threw "SyntaxError: Unexpected end of JSON input")
      else .response 204 "No Content" (.threw "SyntaxError: Unexpected end of JSON input") }

/-- The world at start with a persisted token and the persisted identity text
`null`; the constructor of `APIService` has read the token. -/
def storedNullWorld : World :=
  { startWorld with
    api := { token := .str "tok", sent := [], streams := [] }
    storage := [("rtms_token", "tok"), ("rtms_user", "null")] }

/-- The session state: identity, role and the persisted entries. -/
def sessionOf (w : World) : JsVal × JsVal × List (String × String) :=
  (w.auth.currentUser, w.auth.userRole, w.storage)

/-- A platform whose backend rejects every token verification with status 401
and answers every other request like `acceptingEnv`. -/
def expiredEnv : Env :=
  { acceptingEnv with
    backend := fun sent req =>
      if req.url = "/api/auth/verify" then
        .response 401 "Unauthorized" (.threw "SyntaxError: Unexpected end of JSON input")
      else acceptingEnv.backend sent req }

/-- The world of a student who is logged in and looks at the page `profile`:
two visits from `studentWorld`, the first of which builds the page. -/
def profileWorld : World :=
  (navigateToPage "profile" (navigateToPage "profile" studentWorld).world).world

/-- The identity record of another student. -/
def bob : JsVal :=
  .obj (.cons "id" (.str "u2") (.cons "firstName" (.str "Bob") (.cons "lastName" (.str "Roe")
    (.cons "email" (.str "bob@example.org") (.cons "role" (.str "student") .nil)))))

/-- The world `studentWorld` with `bob` logged in instead of `alice`. -/
def bobWorld : World :=
  { studentWorld with
    auth := { currentUser := bob, userRole := .str "student", loginType := "student" }
    storage := [("rtms_token", "tok2"), ("rtms_user", "bob")] }

/-- The world of `bobWorld` on the page `dashboard`, built by an earlier visit. -/
def bobDashboardWorld : World :=
  (navigateToPage "dashboard" (navigateToPage "dashboard" bobWorld).world).world

/-- The list `authPages` of `requiresAuth`. -/
def authPages : List String :=
  ["dashboard", "submissions", "profile", "admin-dashboard", "manage-students",
   "manage-challenges", "manage-chapters", "analytics", "settings"]

/-- The list `staffPages` of `requiresStaffRole`. -/
def staffPages : List String :=
  ["admin-dashboard", "manage-students", "manage-challenges", "manage-chapters",
   "analytics", "settings"]

/-- The property `headers[name]` of a headers object, `none` when absent.
Names are property names: they are compared as they are written. -/
def getHeader (headers : List (String × String)) (name : String) : Option String :=
  headers.lookup name

/-- The sentinel that `request` returns for status 204. -/
def successSentinel : JsVal := .obj (.cons "success" (.bool true) .nil)

/-- A platform whose backend answers every request with status 200 and an
empty body, which `response.json()` rejects. -/
def emptyBodyEnv : Env :=
  { acceptingEnv with
    backend := fun _ _ => .response 200 "OK" (.threw "Unexpected end of JSON input") }

/-- The options of a plain `GET`, as `request(endpoint)` with one argument has
them. -/
def noOptions : Options := { method := none, headers := none, body := none }

/-- Whether an element is a page that is shown: it carries the classes `page`
and `active`. -/
def isActivePage (e : Element) : Bool := e.hasClass "page" && e.hasClass "active"

/-- A document whose page sections are not navigation links: an element of
class `page` has neither the class `nav-link` nor an `href`. -/
def PagesAreSections (dom : List Element) : Prop :=
  ∀ x ∈ dom, x.hasClass "page" = true → x.hasClass "nav-link" = false ∧ x.href = none

/-- What the router's listeners depend on: the events dispatched so far, and
the click listeners attached by `updateNavLinksForRole`. -/
def eventsOf (w : World) : List (String × JsVal) × Nat := (w.dispatched, w.gateListeners)

/-- The session of a store that restored nothing: no identity, no role, and
neither persisted entry. -/
def Cleared (w : World) : Prop :=
  w.auth.currentUser = .null ∧ w.auth.userRole = .null ∧
  getItem w.storage "rtms_token" = none ∧ getItem w.storage "rtms_user" = none

/-- Whether a login attempt fails: the `try` block of `request` throws, or the
response it returns has no truthy `success`. -/
def loginFails (env : Env) (credentials : JsVal) (w : World) : Bool :=
  match requestTry (fetchAnswer env "/auth/login" (loginOptions env credentials) w) with
  | .threw _ => true
  | .returned response =>
    match response.getProp "success" with
    | .ok success => !success.truthy
    | .error _ => true

/-- Whether `request` classifies the answer as an authorization failure: the
`try` block threw, the browser is online and the message holds `401` or
`Unauthorized`. -/
def classifiedUnauthorized (env : Env) (endpoint : String) (o : Options) (w : World) : Bool :=
  match requestTry (fetchAnswer env endpoint o w) with
  | .threw message => w.online && isAuthError message
  | .returned _ => false

/-! ## Uploads, the theme and more sample platforms -/

/-- The method `APIService.uploadAvatar`.  The `FormData` built from the file is
given as the text of the body. -/
def APIService.uploadAvatar (env : Env) (formData : String) (w : World) : Res JsVal :=
  request env "/users/me/avatar"
    { method := some "POST", body := some formData, headers := some [] } w

/-- The method `APIService.uploadFile`.  The `FormData` built from the file is
given as the text of the body. -/
def APIService.uploadFile (env : Env) (formData endpoint : String) (w : World) : Res JsVal :=
  request env endpoint { method := some "POST", body := some formData, headers := some [] } w

/-- The class `\w` of a regular expression without the unicode flag. -/
def isWordChar (c : Char) : Bool := c.isAlphanum || c == '_'

/-- ASCII whitespace, which separates the tokens of a class attribute. -/
def isAsciiSpace (c : Char) : Bool :=
  c == ' ' || c == '\t' || c == '\n' || c == '\x0c' || c == '\r'

/-- A match of `/theme-\w+/` at the start of the text: what follows the match,
the run of word characters taken as long as it goes. -/
def matchTheme (cs : List Char) : Option (List Char) :=
  if "theme-".toList.isPrefixOf cs then
    match cs.drop 6 with
    | d :: rest => if isWordChar d then some (rest.dropWhile isWordChar) else none
    | [] => none
  else none

/-- The call `text.replace(/theme-\w+/, '')` on the characters of the text:
the leftmost match is taken out, once. -/
def removeThemeMatch : List Char → List Char
  | [] => []
  | c :: cs =>
    match matchTheme (c :: cs) with
    | some rest => rest
    | none => c :: removeThemeMatch cs

/-- The tokens of a class attribute, in order, with repetitions: `cur` holds
the characters of the token being read, last first. -/
def tokensAux : List Char → List Char → List String
  | [], cur => if cur.isEmpty then [] else [String.mk cur.reverse]
  | c :: cs, cur =>
    if isAsciiSpace c then
      (if cur.isEmpty then tokensAux cs [] else String.mk cur.reverse :: tokensAux cs [])
    else tokensAux cs (c :: cur)

/-- The token set of `classList` for a value of `className`: the tokens in
order, each once. -/
def classTokens (className : String) : List String :=
  (tokensAux className.toList []).foldl (fun acc t => if acc.contains t then acc else acc ++ [t]) []

/-- The call `classList.add(token)` on an element whose `className` is given:
a `SyntaxError` for the empty token, an `InvalidCharacterError` for a token
with whitespace, and else the new `className`, the token set with the token,
joined by single spaces. -/
def classListAdd (className token : String) : Outcome String :=
  if token = "" then .threw "The token provided must not be empty."
  else if token.toList.any isAsciiSpace then
    .threw "The token provided contains HTML space characters, which are not valid in tokens."
  else
    let tokens := classTokens className
    .returned (" ".intercalate (if tokens.contains token then tokens else tokens ++ [token]))

/-- The method `RTMSApp.setGlowMode`. -/
def setGlowMode (mode : String) (w : World) : Res Unit :=
  let replaced := String.mk (removeThemeMatch w.theme.bodyClass.toList)
  let w1 := { w with theme := { w.theme with bodyClass := replaced } }
  match classListAdd replaced ("theme-" ++ mode) with
  | .threw e => ⟨w1, .threw e⟩
  | .returned className =>
    ⟨{ w1 with
       theme := { glowMode := mode, bodyClass := className }
       storage := setItem w1.storage "rtms-glow-mode" mode }, .returned ()⟩

/-- The method `RTMSApp.setupGlowMode`. -/
def setupGlowMode (w : World) : Res Unit :=
  -- Check for saved preference
  match getItem w.storage "rtms-glow-mode" with
  | some savedMode => if savedMode != "" then setGlowMode savedMode w else ⟨w, .returned ()⟩
  | none => ⟨w, .returned ()⟩

/-- The theme classes among the tokens of a class attribute. -/
def themeClasses (className : String) : List String :=
  (classTokens className).filter (fun t => "theme-".toList.isPrefixOf t.toList)

/-- A platform whose backend answers every request, the one to `/auth/logout`
included, with status 401 and no message body. -/
def unauthorizedEnv : Env :=
  { acceptingEnv with
    backend := fun _ _ =>
      .response 401 "Unauthorized" (.threw "SyntaxError: Unexpected end of JSON input") }

/-- A platform whose backend rejects the login with status 401 and the
structured message `Invalid credentials`, and answers every other request like
`acceptingEnv`. -/
def invalidCredentialsEnv : Env :=
  { acceptingEnv with
    backend := fun sent req =>
      if req.url = "/api/auth/login" then
        .response 401 "Unauthorized"
          (.returned (.obj (.cons "message" (.str "Invalid credentials") .nil)))
      else acceptingEnv.backend sent req }

/-- A platform whose backend answers `/challenges/4012` with status 404 and a
message that names the id, and every other request like `acceptingEnv`. -/
def notFoundEnv : Env :=
  { acceptingEnv with
    backend := fun sent req =>
      if req.url = "/api/challenges/4012" then
        .response 404 "Not Found"
          (.returned (.obj (.cons "message" (.str "Challenge 4012 not found") .nil)))
      else acceptingEnv.backend sent req }

/-- The navigation menus that are visible: those of `#publicNavMenu`,
`#studentNavMenu` and `#staffNavMenu` without the class `hidden`. -/
def visibleMenus (ui : Ui) : List String :=
  (if ui.publicNavHidden then [] else ["publicNavMenu"]) ++
  (if ui.studentNavHidden then [] else ["studentNavMenu"]) ++
  (if ui.staffNavHidden then [] else ["staffNavMenu"])

/-- How many requests to `/auth/logout` the client has sent: one for each run
of `APIService.logout`. -/
def logoutRequests (w : World) : Nat :=
  w.api.sent.countP (fun r => r.url == "/api/auth/logout")

/-- The world of `startWorld` on the page `policies`: two visits, the first of
which builds the page with its four sections. -/
def policiesWorld : World :=
  (navigateToPage "policies" (navigateToPage "policies" startWorld).world).world

/-- The world of `startWorld` with the element `#navMenu`, which
`setupMobileMenu` looks up, in the document. -/
def menuWorld : World :=
  { startWorld with
    nav := { startWorld.nav with
      dom := sampleDom ++ [{ id := "navMenu", classes := [], href := none, html := "" }] } }

/-- An identity record of a staff member without names and without avatar. -/
def staffRecord : JsVal :=
  .obj (.cons "id" (.str "u3") (.cons "email" (.str "carol@example.org")
    (.cons "role" (.str "staff") .nil)))

/-- A platform whose backend answers the login with status 200, `success` set,
the identity `staffRecord` and the token `tok3`, and every other request like
`acceptingEnv`. -/
def staffLoginEnv : Env :=
  { acceptingEnv with
    backend := fun sent req =>
      if req.url = "/api/auth/login" then
        .response 200 "OK" (.returned (.obj (.cons "success" (.bool true)
          (.cons "user" staffRecord (.cons "token" (.str "tok3") .nil)))))
      else acceptingEnv.backend sent req }

/-! ## Facts about the document and the storage -/

theorem getElementById_eq_none_iff (dom : List Element) (p : String) :
    getElementById dom p = none ↔ p = "" ∨ ∀ e ∈ dom, e.id ≠ p := by
  unfold getElementById
  by_cases hp : p = ""
  · simp [hp]
  · simp [hp, List.find?_eq_none]

theorem getElementById_removeClassFromAll_none (sel c : String) (dom : List Element)
    (p : String) (h : getElementById dom p = none) :
    getElementById (removeClassFromAll sel c dom) p = none := by
  rw [getElementById_eq_none_iff] at h ⊢
  rcases h with h | h
  · exact Or.inl h
  · refine Or.inr ?_
    intro e he
    simp only [removeClassFromAll, List.mem_map] at he
    obtain ⟨e0, he0, rfl⟩ := he
    have := h e0 he0
    split <;> simpa [Element.removeClass] using this

/-- The router writes `World.nav` and nothing else. -/
theorem loadPageContent_frame (p : String) (w : World) :
    (loadPageContent p w).world = { w with nav := (loadPageContent p w).world.nav } := by
  unfold loadPageContent loadPage
  split
  · split
    · rfl
    · split <;> rfl
  · rfl

theorem showPage_frame (p : String) (w : World) :
    (showPage p w).world = { w with nav := (showPage p w).world.nav } := by
  unfold showPage
  rw [loadPageContent_frame]

theorem navigateToPage_frame (p : String) (w : World) :
    (navigateToPage p w).world = { w with nav := (navigateToPage p w).world.nav } := by
  have h := showPage_frame p w
  unfold navigateToPage Res.andThen
  split
  · simp only
    rw [h]
  · exact h

theorem activate_unknown (p : String) (n : Nav) (h : getElementById n.dom p = none) :
    (activate p n).currentPage = n.currentPage := by
  unfold activate
  simp only [getElementById_removeClassFromAll_none "page" "active" n.dom p h]

theorem activate_history (p : String) (n : Nav) :
    (activate p n).history = n.history ∧ (activate p n).hash = n.hash := by
  simp only [activate]
  split <;> exact ⟨rfl, rfl⟩

theorem showPage_unknown (p : String) (w : World) (hbuilder : builderIds.contains p = false) :
    showPage p w = ⟨{ w with nav := markLink p (activate p w.nav) }, .returned ()⟩ := by
  unfold showPage loadPageContent
  simp only [hbuilder, Bool.false_eq_true, if_false]

theorem navigateToPage_unknown (p : String) (w : World)
    (hbuilder : builderIds.contains p = false) :
    (navigateToPage p w).world.nav.history = p :: w.nav.history ∧
    (navigateToPage p w).world.nav.hash = "#" ++ p ∧
    (navigateToPage p w).world.nav.currentPage = (activate p w.nav).currentPage ∧
    (navigateToPage p w).out = .returned () := by
  unfold navigateToPage Res.andThen
  rw [showPage_unknown p w hbuilder]
  simp [markLink, activate_history]

theorem getItem_cons (a b : String) (rest : List (String × String)) (k : String) :
    getItem ((a, b) :: rest) k = if k = a then some b else getItem rest k := by
  unfold getItem
  by_cases h : k = a
  · subst h
    simp [List.lookup]
  · have h' : (k == a) = false := by simp [h]
    simp only [List.lookup, h', if_neg h]

theorem removeItem_cons (a b : String) (rest : List (String × String)) (k : String) :
    removeItem ((a, b) :: rest) k
      = if a = k then removeItem rest k else (a, b) :: removeItem rest k := by
  unfold removeItem
  by_cases h : a = k
  · simp [List.filter_cons, h]
  · simp [List.filter_cons, h]

theorem getItem_removeItem_self (st : List (String × String)) (k : String) :
    getItem (removeItem st k) k = none := by
  induction st with
  | nil => rfl
  | cons kv rest ih =>
    obtain ⟨a, b⟩ := kv
    rw [removeItem_cons]
    by_cases h : a = k
    · rw [if_pos h]; exact ih
    · rw [if_neg h, getItem_cons, if_neg (Ne.symm h)]; exact ih

theorem getItem_removeItem_ne (st : List (String × String)) (k k' : String) (hne : k' ≠ k) :
    getItem (removeItem st k) k' = getItem st k' := by
  induction st with
  | nil => rfl
  | cons kv rest ih =>
    obtain ⟨a, b⟩ := kv
    rw [removeItem_cons, getItem_cons]
    by_cases h : a = k
    · rw [if_pos h, ih, if_neg (by rw [h]; exact hne)]
    · rw [if_neg h, getItem_cons, ih]

theorem getItem_append (x y : List (String × String)) (k : String) :
    getItem (x ++ y) k = (getItem x k).orElse (fun _ => getItem y k) := by
  induction x with
  | nil => rfl
  | cons kv rest ih =>
    obtain ⟨a, b⟩ := kv
    rw [List.cons_append, getItem_cons, getItem_cons, ih]
    by_cases h : k = a
    · rw [if_pos h, if_pos h]; rfl
    · rw [if_neg h, if_neg h]

theorem getItem_setItem_self (st : List (String × String)) (k v : String) :
    getItem (setItem st k v) k = some v := by
  unfold setItem
  rw [getItem_append, getItem_removeItem_self, getItem_cons, if_pos rfl]
  rfl

theorem getItem_setItem_ne (st : List (String × String)) (k k' v : String) (hne : k' ≠ k) :
    getItem (setItem st k v) k' = getItem st k' := by
  unfold setItem
  rw [getItem_append, getItem_removeItem_ne st k k' hne, getItem_cons, if_neg hne]
  cases getItem st k' <;> rfl

/-! ## What the network client writes -/

/-- The call `request` writes the log of sent requests and the pending calls:
it appends the forced logout exactly when the failure is classified as
unauthorized. -/
theorem request_world (env : Env) (endpoint : String) (o : Options) (w : World) :
    (request env endpoint o w).world =
      { w with
        api := { w.api with sent := buildConfig w.api.token ("/api" ++ endpoint) o :: w.api.sent }
        pending := if classifiedUnauthorized env endpoint o w then w.pending ++ [Task.logout]
          else w.pending } := by
  unfold request classifiedUnauthorized
  cases requestTry (fetchAnswer env endpoint o w) with
  | returned v => simp
  | threw m =>
    cases hon : w.online <;> cases hauth : isAuthError m <;> simp [hon, hauth]

theorem logoutRemote_frame (env : Env) (w : World) :
    (logoutRemote env w).auth = w.auth ∧ (logoutRemote env w).storage = w.storage ∧
    (logoutRemote env w).ui = w.ui ∧ (logoutRemote env w).nav = w.nav ∧
    (logoutRemote env w).windowApp = w.windowApp := by
  unfold logoutRemote APIService.logout Res.andThen
  simp only []
  split <;> split <;> simp_all [request_world]

theorem logoutLocal_effect (w : World) :
    (logoutLocal w).world.auth.currentUser = .null ∧
    (logoutLocal w).world.auth.userRole = .null ∧
    (logoutLocal w).world.storage = removeItem (removeItem w.storage "rtms_token") "rtms_user" ∧
    (logoutLocal w).out = (if w.windowApp then .returned () else .threw appUnbound) := by
  have hhome : builderIds.contains "home" = false := by decide
  unfold logoutLocal windowAppNavigate Res.andThen
  cases happ : w.windowApp with
  | false => simp [clearSession, happ]
  | true =>
    have hnav := navigateToPage_unknown "home" (clearSession w) hhome
    have hw : (clearSession w).windowApp = true := happ
    simp only [hw, if_true, hnav.2.2.2, showToast]
    rw [navigateToPage_frame]
    simp [clearSession]

/-- The session after `logout`, and the way the call ends. -/
theorem logout_effect (env : Env) (w : World) :
    (logout env w).world.auth.currentUser = .null ∧
    (logout env w).world.auth.userRole = .null ∧
    (logout env w).world.storage = removeItem (removeItem w.storage "rtms_token") "rtms_user" ∧
    (logout env w).out = (if w.windowApp then .returned () else .threw appUnbound) := by
  obtain ⟨_, hstore, _, _, happ⟩ := logoutRemote_frame env w
  have h := logoutLocal_effect (logoutRemote env w)
  rw [hstore, happ] at h
  exact h

/-! ## What the session store writes -/

theorem sessionOf_windowAppNavigate (p : String) (w : World) :
    sessionOf (windowAppNavigate p w).world = sessionOf w := by
  unfold windowAppNavigate
  split
  · rw [navigateToPage_frame]
    rfl
  · rfl

theorem updateAuthUI_frame (w : World) :
    sessionOf (updateAuthUI w).world = sessionOf w ∧
    (updateAuthUI w).world.api = w.api ∧
    (updateAuthUI w).world.windowApp = w.windowApp := by
  unfold updateAuthUI
  simp only []
  split
  · split <;> exact ⟨rfl, rfl, rfl⟩
  all_goals exact ⟨rfl, rfl, rfl⟩

theorem sessionOf_updateNavigation (w : World) :
    sessionOf (updateNavigation w) = sessionOf w := by
  unfold updateNavigation
  simp only []
  split <;> rfl

theorem sessionOf_setupRealtime (env : Env) (token : JsVal) (w : World) :
    sessionOf (setupRealtime env token w) = sessionOf w := by
  unfold setupRealtime
  split <;> rfl

/-- The session after `setAuthenticatedUser` with a record as the user,
whether the interface update that follows returns or throws. -/
theorem sessionOf_setAuthenticatedUser (env : Env) (fields : JsFields) (token : JsVal)
    (w : World) :
    sessionOf (setAuthenticatedUser env (.obj fields) token w).world =
      (.obj fields, fields.lookup "role",
        setItem (setItem w.storage "rtms_token" token.toStr) "rtms_user"
          (env.stringify (.obj fields))) := by
  unfold setAuthenticatedUser Res.andThen
  simp only [JsVal.getProp]
  split
  · rw [sessionOf_setupRealtime, sessionOf_updateNavigation]
    rw [(updateAuthUI_frame _).1]
    rfl
  · rw [(updateAuthUI_frame _).1]
    rfl

theorem sessionOf_loginSucceeded (env : Env) (fields : JsFields) (token : JsVal) (w : World) :
    sessionOf (loginSucceeded env (.obj fields) token w).world =
      (.obj fields, fields.lookup "role",
        setItem (setItem w.storage "rtms_token" token.toStr) "rtms_user"
          (env.stringify (.obj fields))) := by
  have h := sessionOf_setAuthenticatedUser env fields token w
  unfold loginSucceeded Res.andThen
  split
  · simp only [JsVal.getProp]
    split
    · rw [sessionOf_windowAppNavigate]
      exact h
    · rw [sessionOf_windowAppNavigate]
      exact h
  · exact h

theorem sessionOf_handleLoginEnd (r : Res Unit) :
    sessionOf (handleLoginEnd r).world = sessionOf r.world ∧
    (handleLoginEnd r).out = .returned () := by
  refine ⟨?_, rfl⟩
  unfold handleLoginEnd
  simp only []
  split <;> rfl

theorem handleLoginEnd_threw (r : Res Unit) (e : String) (he : r.out = .threw e) :
    (handleLoginEnd r).world = setLoginLoading false
      (showToast (if e != "" then e else "Login failed. Please try again.") "error" r.world) := by
  unfold handleLoginEnd
  simp only [he]

/-! ## The router: claims C1 to C3, C5 and C6 -/

/-- C1, evaluated on the code: `navigateToPage` has no authorization gate.
For every page and every world it leaves the count of `showLoginModal` calls as
it was, so no login prompt is requested; and for the anonymous session of
`startWorld` and the auth-required page `dashboard`, the first call builds the
page and the second call makes it the current page. -/
theorem navigateToPage_anonymous_not_gated :
    (∀ (p : String) (w : World),
      (navigateToPage p w).world.ui.loginModalShown = w.ui.loginModalShown) ∧
    isAuthenticated startWorld = false ∧ requiresAuth "dashboard" = true ∧
    (navigateToPage "dashboard" startWorld).world.nav.currentPage = "home" ∧
    isAuthenticated (navigateToPage "dashboard" startWorld).world = false ∧
    (navigateToPage "dashboard"
        (navigateToPage "dashboard" startWorld).world).world.nav.currentPage = "dashboard" := by
  refine ⟨?_, by decide, by decide, by decide, by decide, by decide⟩
  intro p w
  rw [navigateToPage_frame]

/-- C2, evaluated on the code: `navigateToPage` does not look at the role.
For every page and every world it shows no toast, so no access-denied notice
is requested; and for the student session of `studentWorld` and the staff-only
page `admin-dashboard`, the call made once the page is built makes it the
current page. -/
theorem navigateToPage_student_not_refused :
    (∀ (p : String) (w : World), (navigateToPage p w).world.ui.toasts = w.ui.toasts) ∧
    isAuthenticated studentWorld = true ∧ isStaff studentWorld = false ∧
    requiresStaffRole "admin-dashboard" = true ∧
    isStaff (navigateToPage "admin-dashboard" studentWorld).world = false ∧
    (navigateToPage "admin-dashboard"
        (navigateToPage "admin-dashboard" studentWorld).world).world.nav.currentPage
      = "admin-dashboard" := by
  refine ⟨?_, by decide, by decide, by decide, by decide, by decide⟩
  intro p w
  rw [navigateToPage_frame]

/-- C3, evaluated on the code: the first `navigateToPage('join')` from
`startWorld`, where the page `join` is not built yet.  The page is looked up
before it is built: the call builds the page and pushes one history entry, but
the current page is still `home`, no page is active and the new page does not
carry the class `active`. -/
theorem navigateToPage_first_visit_not_shown :
    builderIds.contains "join" = true ∧ requiresAuth "join" = false ∧
    getElementById startWorld.nav.dom "join" = none ∧
    (navigateToPage "join" startWorld).out = .returned () ∧
    (navigateToPage "join" startWorld).world.nav.currentPage = "home" ∧
    activePages (navigateToPage "join" startWorld).world = [] ∧
    getElementById (navigateToPage "join" startWorld).world.nav.dom "join"
      = some (createPage "join" (pageTemplate "join")) ∧
    (navigateToPage "join" startWorld).world.nav.history = ["join"] := by
  decide

/-- C5, evaluated on the code: `showPage` hides every page before it looks the
target up.  From `startWorld`, where `home` is the one active page, a call with
the unknown id `nowhere` leaves no page active while `currentPage` still names
`home`. -/
theorem showPage_unknown_leaves_no_active_page :
    activePages startWorld = ["home"] ∧ startWorld.nav.currentPage = "home" ∧
    activePages (showPage "nowhere" startWorld).world = [] ∧
    (showPage "nowhere" startWorld).world.nav.currentPage = "home" ∧
    activePages (navigateToPage "nowhere" startWorld).world = [] := by
  decide

/-- C6, evaluated on the code: `navigateToPage` pushes unconditionally.  For
every id without a case in `loadPageContent`, known to the document or not, the
call pushes the entry of that id and sets the fragment to it; for the unknown
id `nowhere` in `startWorld` the history gets its first entry. -/
theorem navigateToPage_unknown_pushes_history :
    (∀ (p : String) (w : World), builderIds.contains p = false →
      (navigateToPage p w).world.nav.history = p :: w.nav.history ∧
      (navigateToPage p w).world.nav.hash = "#" ++ p) ∧
    getElementById startWorld.nav.dom "nowhere" = none ∧
    builderIds.contains "nowhere" = false ∧
    startWorld.nav.history = [] ∧ startWorld.nav.hash = "" ∧
    (navigateToPage "nowhere" startWorld).world.nav.history = ["nowhere"] ∧
    (navigateToPage "nowhere" startWorld).world.nav.hash = "#nowhere" := by
  refine ⟨?_, by decide, by decide, by decide, by decide, by decide, by decide⟩
  intro p w hb
  exact ⟨(navigateToPage_unknown p w hb).1, (navigateToPage_unknown p w hb).2.1⟩

/-! ## The session store: claims C7 to C10 -/

/-- C7: after `logout()`, for every world before the call and every backend
(so whether the remote logout request succeeds or throws), `currentUser` and
`userRole` are `null`, `isAuthenticated()` is false and both persisted entries
are gone.  The way the call ends does not depend on the backend: the remote
failure does not reach the caller (the call returns when `window.app` is
bound, and otherwise ends in the `TypeError` of the redirect to `home`). -/
theorem logout_clears_session (env : Env) (w : World) :
    (logout env w).world.auth.currentUser = .null ∧
    (logout env w).world.auth.userRole = .null ∧
    isAuthenticated (logout env w).world = false ∧
    getItem (logout env w).world.storage "rtms_token" = none ∧
    getItem (logout env w).world.storage "rtms_user" = none ∧
    (logout env w).out = (if w.windowApp then .returned () else .threw appUnbound) := by
  obtain ⟨huser, hrole, hstore, hout⟩ := logout_effect env w
  refine ⟨huser, hrole, ?_, ?_, ?_, hout⟩
  · unfold isAuthenticated
    rw [huser]
    rfl
  · rw [hstore, getItem_removeItem_ne _ _ _ (by decide), getItem_removeItem_self]
  · rw [hstore, getItem_removeItem_self]

/-- C8: for every login whose backend response is a 2xx answer (other than
204) with a JSON object in which `success` is `true`, `user` is a record and
`token` is a string that is not empty: `handleLogin` completes, and then
`isAuthenticated()` is true, `currentUser` is that record, `userRole` is its
`role`, and `getAuthToken()` (the persisted `rtms_token`) is that token. -/
theorem handleLogin_success_session (env : Env) (email password : String) (rememberMe : Bool)
    (w : World) (status : Nat) (statusText : String) (body fields : JsFields) (token : String)
    (hanswer : fetchAnswer env "/auth/login"
        (loginOptions env (loginData email password w.auth.loginType rememberMe)) w
      = .response status statusText (.returned (.obj body)))
    (hok : statusOk status = true) (h204 : status ≠ 204)
    (hsuccess : body.lookup "success" = .bool true)
    (huser : body.lookup "user" = .obj fields)
    (htoken : body.lookup "token" = .str token) (hne : token ≠ "") :
    (handleLogin env email password rememberMe w).out = .returned () ∧
    isAuthenticated (handleLogin env email password rememberMe w).world = true ∧
    (handleLogin env email password rememberMe w).world.auth.currentUser = .obj fields ∧
    (handleLogin env email password rememberMe w).world.auth.userRole = fields.lookup "role" ∧
    getAuthToken (handleLogin env email password rememberMe w).world = some token ∧
    token ≠ "" := by
  have hsess : sessionOf (handleLogin env email password rememberMe w).world =
      (.obj fields, fields.lookup "role",
        setItem (setItem w.storage "rtms_token" token) "rtms_user"
          (env.stringify (.obj fields))) := by
    unfold handleLogin
    rw [(sessionOf_handleLoginEnd _).1]
    have hans : fetchAnswer env "/auth/login"
        (loginOptions env (loginData email password (setLoginLoading true w).auth.loginType
          rememberMe)) (setLoginLoading true w)
        = .response status statusText (.returned (.obj body)) := hanswer
    have htry : requestTry (FetchResult.response status statusText (.returned (.obj body)))
        = .returned (.obj body) := by
      simp [requestTry, hok, h204]
    unfold handleLoginTry APIService.login Res.andThen request
    simp only [hans, htry, JsVal.getProp, hsuccess, huser, htoken, JsVal.truthy, bne_iff_ne,
      ne_eq, hne, not_false_eq_true, if_true]
    exact sessionOf_loginSucceeded env fields (.str token) _
  have hcur : (handleLogin env email password rememberMe w).world.auth.currentUser
      = .obj fields := congrArg (fun s => s.1) hsess
  have hrole : (handleLogin env email password rememberMe w).world.auth.userRole
      = fields.lookup "role" := congrArg (fun s => s.2.1) hsess
  have hstore : (handleLogin env email password rememberMe w).world.storage
      = setItem (setItem w.storage "rtms_token" token) "rtms_user"
          (env.stringify (.obj fields)) := congrArg (fun s => s.2.2) hsess
  refine ⟨(sessionOf_handleLoginEnd _).2, ?_, hcur, hrole, ?_, hne⟩
  · unfold isAuthenticated
    rw [hcur]
    rfl
  · unfold getAuthToken
    rw [hstore, getItem_setItem_ne _ _ _ _ (by decide), getItem_setItem_self]

/-- C8 at a concrete input: the login of `alice` against `acceptingEnv`,
from `startWorld`. -/
theorem handleLogin_success_session_witness :
    (handleLogin acceptingEnv "alice@example.org" "secret" false startWorld).out = .returned () ∧
    isAuthenticated
      (handleLogin acceptingEnv "alice@example.org" "secret" false startWorld).world = true ∧
    (handleLogin acceptingEnv "alice@example.org" "secret" false startWorld).world.auth.currentUser
      = alice ∧
    (handleLogin acceptingEnv "alice@example.org" "secret" false startWorld).world.auth.userRole
      = .str "student" ∧
    getAuthToken (handleLogin acceptingEnv "alice@example.org" "secret" false startWorld).world
      = some "tok" ∧
    "tok" ≠ "" :=
  handleLogin_success_session acceptingEnv "alice@example.org" "secret" false startWorld
    200 "OK" aliceLoginBody _ "tok" (by decide) (by decide) (by decide) (by decide) rfl
    (by decide) (by decide)

theorem getProp_str_plain (t name : String) (h1 : name ≠ "length") (h2 : parseIndex name = none) :
    (JsVal.str t).getProp name = .ok .undefined := by
  simp [JsVal.getProp, h1, h2]

theorem getProp_arr_plain (items : JsFields) (name : String) (h1 : name ≠ "length")
    (h2 : parseIndex name = none) : (JsVal.arr items).getProp name = .ok .undefined := by
  simp [JsVal.getProp, h1, h2]

/-- The way `request` ends, from the end of its `try` block. -/
theorem request_out (env : Env) (endpoint : String) (o : Options) (w : World) :
    (request env endpoint o w).out =
      match requestTry (fetchAnswer env endpoint o w) with
      | .returned v => .returned v
      | .threw m =>
        .threw (if w.online then
          (if isAuthError m then "Session expired. Please log in again." else m)
          else "Network connection failed. Please check your internet connection.") := by
  unfold request
  cases requestTry (fetchAnswer env endpoint o w) with
  | returned v => rfl
  | threw m =>
    cases hon : w.online <;> cases hauth : isAuthError m <;> simp [hon, hauth]

/-- A failed login: the `try` block of `handleLogin` throws, and the world it
leaves differs from the world before in the client (token and log of sent
requests) and in the pending calls only. -/
theorem handleLoginTry_failure (env : Env) (email password : String) (rememberMe : Bool)
    (w : World)
    (hfail : loginFails env (loginData email password w.auth.loginType rememberMe) w = true) :
    (∃ e, (handleLoginTry env email password rememberMe w).out = .threw e) ∧
    (handleLoginTry env email password rememberMe w).world.auth = w.auth ∧
    (handleLoginTry env email password rememberMe w).world.storage = w.storage ∧
    (handleLoginTry env email password rememberMe w).world.ui = w.ui ∧
    (handleLoginTry env email password rememberMe w).world.pending =
      (if classifiedUnauthorized env "/auth/login"
          (loginOptions env (loginData email password w.auth.loginType rememberMe)) w
        then w.pending ++ [Task.logout] else w.pending) := by
  have hw := request_world env "/auth/login"
    (loginOptions env (loginData email password w.auth.loginType rememberMe)) w
  have hout := request_out env "/auth/login"
    (loginOptions env (loginData email password w.auth.loginType rememberMe)) w
  unfold loginFails at hfail
  unfold handleLoginTry APIService.login Res.andThen
  generalize request env "/auth/login"
    (loginOptions env (loginData email password w.auth.loginType rememberMe)) w = r at hw hout ⊢
  obtain ⟨rworld, rout⟩ := r
  simp only at hw hout
  subst hw
  cases hreq : requestTry (fetchAnswer env "/auth/login"
      (loginOptions env (loginData email password w.auth.loginType rememberMe)) w) with
  | threw m =>
    rw [hreq] at hout
    simp only at hout
    subst hout
    exact ⟨⟨_, rfl⟩, rfl, rfl, rfl, rfl⟩
  | returned response =>
    rw [hreq] at hout hfail
    simp only at hout hfail
    subst hout
    have hcl : classifiedUnauthorized env "/auth/login"
        (loginOptions env (loginData email password w.auth.loginType rememberMe)) w = false := by
      unfold classifiedUnauthorized
      rw [hreq]
    rw [hcl]
    simp only [Bool.false_eq_true, if_false]
    cases response with
    | undefined => exact ⟨⟨_, rfl⟩, rfl, rfl, rfl, rfl⟩
    | null => exact ⟨⟨_, rfl⟩, rfl, rfl, rfl, rfl⟩
    | bool b => simp [JsVal.getProp, JsVal.truthy]
    | num n => simp [JsVal.getProp, JsVal.truthy]
    | str t =>
      simp [getProp_str_plain t "token" (by decide) (by decide),
        getProp_str_plain t "success" (by decide) (by decide),
        getProp_str_plain t "user" (by decide) (by decide),
        getProp_str_plain t "message" (by decide) (by decide), JsVal.truthy]
    | arr items =>
      simp [getProp_arr_plain items "token" (by decide) (by decide),
        getProp_arr_plain items "success" (by decide) (by decide),
        getProp_arr_plain items "user" (by decide) (by decide),
        getProp_arr_plain items "message" (by decide) (by decide), JsVal.truthy]
    | obj fields =>
      simp only [JsVal.getProp] at hfail ⊢
      have hs : (fields.lookup "success").truthy = false := by simpa using hfail
      simp only [hs, Bool.false_eq_true, if_false]
      split <;> exact ⟨⟨_, rfl⟩, rfl, rfl, rfl, rfl⟩

/-- C9: for every login attempt that fails (the `try` block of `request`
throws, whatever the status, or the response has no truthy `success`),
`handleLogin` completes and shows an error notice, and the session at its
completion is the session before the attempt: `currentUser`, `userRole` and
the persisted entries, `rtms_token` and `rtms_user` among them, are the
same. -/
theorem handleLogin_failure_session (env : Env) (email password : String) (rememberMe : Bool)
    (w : World)
    (hfail : loginFails env (loginData email password w.auth.loginType rememberMe) w = true) :
    (handleLogin env email password rememberMe w).out = .returned () ∧
    (handleLogin env email password rememberMe w).world.auth.currentUser = w.auth.currentUser ∧
    (handleLogin env email password rememberMe w).world.auth.userRole = w.auth.userRole ∧
    (handleLogin env email password rememberMe w).world.storage = w.storage ∧
    getItem (handleLogin env email password rememberMe w).world.storage "rtms_token"
      = getItem w.storage "rtms_token" ∧
    getItem (handleLogin env email password rememberMe w).world.storage "rtms_user"
      = getItem w.storage "rtms_user" ∧
    (∃ msg, (handleLogin env email password rememberMe w).world.ui.toasts
      = (msg, "error") :: w.ui.toasts) := by
  obtain ⟨⟨e, he⟩, hauth, hstore, hui, _⟩ :=
    handleLoginTry_failure env email password rememberMe (setLoginLoading true w) hfail
  have hstorage : (handleLogin env email password rememberMe w).world.storage = w.storage := by
    have h := congrArg (fun s => s.2.2) (sessionOf_handleLoginEnd
      (handleLoginTry env email password rememberMe (setLoginLoading true w))).1
    exact h.trans hstore
  refine ⟨(sessionOf_handleLoginEnd _).2, ?_, ?_, hstorage, by rw [hstorage], by rw [hstorage],
    ?_⟩
  · have h := congrArg (fun s => s.1) (sessionOf_handleLoginEnd
      (handleLoginTry env email password rememberMe (setLoginLoading true w))).1
    exact h.trans (congrArg Auth.currentUser hauth)
  · have h := congrArg (fun s => s.2.1) (sessionOf_handleLoginEnd
      (handleLoginTry env email password rememberMe (setLoginLoading true w))).1
    exact h.trans (congrArg Auth.userRole hauth)
  · refine ⟨if e != "" then e else "Login failed. Please try again.", ?_⟩
    unfold handleLogin
    rw [handleLoginEnd_threw _ e he]
    exact congrArg
      (fun u => ((if e != "" then e else "Login failed. Please try again."), "error") :: u.toasts)
      hui

/-- C9 at a concrete input: the attempt of the logged-in `alice` that
`rejectingEnv` answers with status 401. -/
theorem handleLogin_failure_session_witness :
    (handleLogin rejectingEnv "alice@example.org" "wrong" false studentWorld).out
      = .returned () ∧
    (handleLogin rejectingEnv "alice@example.org" "wrong" false
      studentWorld).world.auth.currentUser = studentWorld.auth.currentUser ∧
    (handleLogin rejectingEnv "alice@example.org" "wrong" false
      studentWorld).world.auth.userRole = studentWorld.auth.userRole ∧
    (handleLogin rejectingEnv "alice@example.org" "wrong" false studentWorld).world.storage
      = studentWorld.storage ∧
    getItem (handleLogin rejectingEnv "alice@example.org" "wrong" false
      studentWorld).world.storage "rtms_token" = getItem studentWorld.storage "rtms_token" ∧
    getItem (handleLogin rejectingEnv "alice@example.org" "wrong" false
      studentWorld).world.storage "rtms_user" = getItem studentWorld.storage "rtms_user" ∧
    (∃ msg, (handleLogin rejectingEnv "alice@example.org" "wrong" false
      studentWorld).world.ui.toasts = (msg, "error") :: studentWorld.ui.toasts) :=
  handleLogin_failure_session rejectingEnv "alice@example.org" "wrong" false studentWorld
    (by decide)

/-- C10, evaluated on the code: `localStorage` holds the token `tok` and the
identity text `null`.  `JSON.parse` gives `null`, `setAuthenticatedUser` sets
`currentUser` to `null` and throws at `user.role`, outside the reach of the
`catch` block; the backend then accepts the token.  The `rtms_token` entry is
present while `currentUser` is `null`, after `checkStoredAuth` and after the
verification has run. -/
theorem checkStoredAuth_null_identity_keeps_token :
    getItem storedNullWorld.storage "rtms_token" = some "tok" ∧
    getItem storedNullWorld.storage "rtms_user" = some "null" ∧
    acceptingEnv.parse "null" = some .null ∧
    (checkStoredAuth acceptingEnv storedNullWorld).auth.currentUser = .null ∧
    getAuthToken (checkStoredAuth acceptingEnv storedNullWorld) = some "tok" ∧
    (checkStoredAuth acceptingEnv storedNullWorld).pending = [Task.verifyToken "tok"] ∧
    (settle acceptingEnv 2 (checkStoredAuth acceptingEnv storedNullWorld)).pending = [] ∧
    (settle acceptingEnv 2 (checkStoredAuth acceptingEnv storedNullWorld)).auth.currentUser
      = .null ∧
    isAuthenticated (settle acceptingEnv 2 (checkStoredAuth acceptingEnv storedNullWorld))
      = false ∧
    getAuthToken (settle acceptingEnv 2 (checkStoredAuth acceptingEnv storedNullWorld))
      = some "tok" := by
  decide

/-! ## Pending calls and the cleared session -/

theorem logout_cleared (env : Env) (w : World) : Cleared (logout env w).world := by
  obtain ⟨huser, hrole, hstore, _⟩ := logout_effect env w
  refine ⟨huser, hrole, ?_, ?_⟩
  · rw [hstore, getItem_removeItem_ne _ _ _ (by decide), getItem_removeItem_self]
  · rw [hstore, getItem_removeItem_self]

theorem updateNotifications_frame (env : Env) (w : World) :
    (updateNotifications env w).world.auth = w.auth ∧
    (updateNotifications env w).world.storage = w.storage ∧
    (updateNotifications env w).world.pending =
      (if classifiedUnauthorized env "/notifications"
          { method := none, headers := none, body := none } w
        then w.pending ++ [Task.logout] else w.pending) := by
  unfold updateNotifications APIService.getNotifications
  simp only []
  split
  · split <;> simp [request_world]
  · simp [request_world]

/-- A verification that fails leaves the session as it is and ends with the
logout of the `catch` callback pending, after the forced logout if `request`
started one. -/
theorem verifyToken_failed (env : Env) (token : String) (w : World)
    (hverify : ∀ sent req, req.url = "/api/auth/verify" →
      ∃ m, requestTry (env.backend sent req) = .threw m) :
    (runTask env (.verifyToken token) w).world.auth = w.auth ∧
    (runTask env (.verifyToken token) w).world.storage = w.storage ∧
    (runTask env (.verifyToken token) w).world.pending =
      (if classifiedUnauthorized env "/auth/verify"
          { method := none, headers := some [("Authorization", "Bearer " ++ token)],
            body := none } w
        then w.pending ++ [Task.logout] else w.pending) ++ [Task.logout] := by
  obtain ⟨m, hm⟩ := hverify w.api.sent
    (buildConfig w.api.token ("/api" ++ "/auth/verify")
      { method := none, headers := some [("Authorization", "Bearer " ++ token)], body := none })
    (by show "/api" ++ "/auth/verify" = "/api/auth/verify"; decide)
  have hout := request_out env "/auth/verify"
    { method := none, headers := some [("Authorization", "Bearer " ++ token)], body := none } w
  have hm' : requestTry (fetchAnswer env "/auth/verify"
      { method := none, headers := some [("Authorization", "Bearer " ++ token)], body := none } w)
      = .threw m := hm
  rw [hm'] at hout
  unfold runTask APIService.verifyToken
  simp only [hout]
  simp [request_world]

theorem runTask_cleared (env : Env) (task : Task) (w : World) (h : Cleared w) :
    Cleared (runTask env task w).world := by
  cases task with
  | logout => exact logout_cleared env w
  | updateNotifications =>
    obtain ⟨ha, hs, _⟩ := updateNotifications_frame env w
    unfold Cleared runTask
    rw [ha, hs]
    exact h
  | verifyToken token =>
    have hw := request_world env "/auth/verify"
      { method := none, headers := some [("Authorization", "Bearer " ++ token)], body := none } w
    unfold Cleared runTask APIService.verifyToken
    simp only []
    split <;> simp only [hw] <;> exact h

theorem settle_cleared (env : Env) (fuel : Nat) (w : World) (h : Cleared w) :
    Cleared (settle env fuel w) := by
  induction fuel generalizing w with
  | zero => exact h
  | succ n ih =>
    unfold settle
    split
    · exact h
    · exact ih _ (runTask_cleared env _ _ h)

theorem settle_head_logout (env : Env) (fuel : Nat) (w : World) (rest : List Task)
    (h : w.pending = Task.logout :: rest) : Cleared (settle env (fuel + 1) w) := by
  unfold settle
  rw [h]
  exact settle_cleared env fuel _ (logout_cleared env _)

theorem settle_all_logout (env : Env) (fuel : Nat) (w : World)
    (hne : w.pending ≠ []) (hall : ∀ t ∈ w.pending, t = Task.logout) :
    Cleared (settle env (fuel + 1) w) := by
  cases hp : w.pending with
  | nil => exact absurd hp hne
  | cons t rest =>
    have ht : t = Task.logout := hall t (by rw [hp]; exact List.mem_cons_self _ _)
    subst ht
    exact settle_head_logout env fuel w rest hp

theorem settle_head_verifyToken (env : Env) (fuel : Nat) (w : World) (token : String)
    (rest : List Task) (h : w.pending = Task.verifyToken token :: rest)
    (hrest : ∀ t ∈ rest, t = Task.logout)
    (hverify : ∀ sent req, req.url = "/api/auth/verify" →
      ∃ m, requestTry (env.backend sent req) = .threw m) :
    Cleared (settle env (fuel + 2) w) := by
  unfold settle
  rw [h]
  simp only []
  obtain ⟨_, _, hp⟩ := verifyToken_failed env token { w with pending := rest } hverify
  apply settle_all_logout
  · rw [hp]
    simp
  · rw [hp]
    intro t ht
    simp only [List.mem_append, List.mem_singleton] at ht
    rcases ht with ht | ht
    · split at ht
      · simp only [List.mem_append, List.mem_singleton] at ht
        rcases ht with ht | ht
        · exact hrest t ht
        · exact ht
      · exact hrest t ht
    · exact ht

theorem updateAuthUI_pending (w : World) :
    (updateAuthUI w).world.pending = w.pending ∨
    (updateAuthUI w).world.pending = w.pending ++ [Task.updateNotifications] := by
  unfold updateAuthUI
  simp only []
  split
  · split
    · exact Or.inr rfl
    · exact Or.inl rfl
  all_goals exact Or.inl rfl

theorem setAuthenticatedUser_pending (env : Env) (user token : JsVal) (w : World) :
    (setAuthenticatedUser env user token w).world.pending = w.pending ∨
    (setAuthenticatedUser env user token w).world.pending
      = w.pending ++ [Task.updateNotifications] := by
  unfold setAuthenticatedUser Res.andThen
  simp only []
  split
  · exact Or.inl rfl
  · split
    · have hnav : ∀ (v : World), (setupRealtime env token (updateNavigation v)).pending
          = v.pending := by
        intro v
        unfold setupRealtime updateNavigation
        simp only []
        split <;> split <;> rfl
      rw [hnav]
      exact updateAuthUI_pending _
    · exact updateAuthUI_pending _

/-- What `checkStoredAuth` leaves pending when both entries are stored and
nothing was pending before: the logout of the `catch` block when the identity
does not parse, and else the verification, after the notification refresh when
the interface update got that far. -/
theorem checkStoredAuth_pending (env : Env) (w : World) (token userData : String)
    (hpending : w.pending = [])
    (htoken : getItem w.storage "rtms_token" = some token) (htne : token ≠ "")
    (huser : getItem w.storage "rtms_user" = some userData) (hune : userData ≠ "") :
    (checkStoredAuth env w).pending = [Task.logout] ∨
    (checkStoredAuth env w).pending = [Task.verifyToken token] ∨
    (checkStoredAuth env w).pending = [Task.updateNotifications, Task.verifyToken token] := by
  have hcond : (truthyItem (some token) && truthyItem (some userData)) = true := by
    simp [truthyItem, htne, hune]
  unfold checkStoredAuth
  simp only [htoken, huser, hcond, if_true, Option.getD_some]
  cases env.parse userData with
  | some user =>
    rcases setAuthenticatedUser_pending env user (.str token) w with h | h
    · refine Or.inr (Or.inl ?_)
      simp only [h, hpending, List.nil_append]
    · refine Or.inr (Or.inr ?_)
      simp only [h, hpending, List.nil_append, List.singleton_append]
  | none => exact Or.inl (by simp only [hpending, List.nil_append])

/-! ## Events -/

theorem andThen_frame {α β γ : Type} (f : World → γ) (r : Res α) (k : α → World → Res β)
    (hk : ∀ a w, f (k a w).world = f w) : f (r.andThen k).world = f r.world := by
  unfold Res.andThen
  split
  · exact hk _ _
  · rfl

theorem eventsOf_request (env : Env) (endpoint : String) (o : Options) (w : World) :
    eventsOf (request env endpoint o w).world = eventsOf w := by
  rw [request_world]
  rfl

theorem eventsOf_navigateToPage (p : String) (w : World) :
    eventsOf (navigateToPage p w).world = eventsOf w := by
  rw [navigateToPage_frame]
  rfl

theorem eventsOf_windowAppNavigate (p : String) (w : World) :
    eventsOf (windowAppNavigate p w).world = eventsOf w := by
  unfold windowAppNavigate
  split
  · exact eventsOf_navigateToPage p w
  · rfl

theorem eventsOf_apiLogout (env : Env) (w : World) :
    eventsOf (APIService.logout env w).world = eventsOf w := by
  unfold APIService.logout
  rw [andThen_frame eventsOf _ _ (fun _ _ => rfl)]
  exact eventsOf_request env _ _ w

theorem eventsOf_logout (env : Env) (w : World) :
    eventsOf (logout env w).world = eventsOf w := by
  have hremote : eventsOf (logoutRemote env w) = eventsOf w := by
    unfold logoutRemote
    simp only []
    split <;> exact eventsOf_apiLogout env w
  unfold logout logoutLocal
  rw [andThen_frame eventsOf _ _ (fun _ _ => rfl), eventsOf_windowAppNavigate]
  exact hremote

theorem eventsOf_updateAuthUI (w : World) : eventsOf (updateAuthUI w).world = eventsOf w := by
  unfold updateAuthUI
  simp only []
  split
  · split <;> rfl
  all_goals rfl

theorem eventsOf_setAuthenticatedUser (env : Env) (user token : JsVal) (w : World) :
    eventsOf (setAuthenticatedUser env user token w).world = eventsOf w := by
  unfold setAuthenticatedUser
  simp only []
  split
  · rfl
  · rw [andThen_frame eventsOf]
    · exact eventsOf_updateAuthUI _
    · intro _ v
      unfold setupRealtime updateNavigation
      simp only []
      split <;> split <;> rfl

theorem eventsOf_loginSucceeded (env : Env) (user token : JsVal) (w : World) :
    eventsOf (loginSucceeded env user token w).world = eventsOf w := by
  unfold loginSucceeded
  rw [andThen_frame eventsOf]
  · exact eventsOf_setAuthenticatedUser env user token w
  · intro _ v
    simp only []
    split
    · split <;> exact eventsOf_windowAppNavigate _ _
    · rfl

theorem eventsOf_handleLogin (env : Env) (email password : String) (rememberMe : Bool)
    (w : World) : eventsOf (handleLogin env email password rememberMe w).world = eventsOf w := by
  have hend : ∀ r : Res Unit, eventsOf (handleLoginEnd r).world = eventsOf r.world := by
    intro r
    unfold handleLoginEnd
    simp only []
    split <;> rfl
  unfold handleLogin
  rw [hend]
  unfold handleLoginTry
  rw [andThen_frame eventsOf]
  · unfold APIService.login
    rw [andThen_frame eventsOf]
    · exact eventsOf_request env _ _ _
    · intro response v
      simp only []
      split
      · rfl
      · split <;> rfl
  · intro response v
    split
    · split
      · exact eventsOf_loginSucceeded env _ _ v
      · rfl
    all_goals rfl

theorem eventsOf_showToast (message type : String) (w : World) :
    eventsOf (showToast message type w) = eventsOf w := rfl

theorem eventsOf_handleSocialLogin (env : Env) (provider : String) (w : World) :
    eventsOf (handleSocialLogin env provider w).world = eventsOf w := by
  have hset := eventsOf_setAuthenticatedUser env
  unfold handleSocialLogin
  simp [APIService.socialLogin, JsVal.getProp, JsFields.lookup, JsVal.truthy]
  split
  · rw [andThen_frame eventsOf _ _ (fun _ _ => rfl)]
    exact (hset _ _ _).trans rfl
  · rw [eventsOf_showToast, andThen_frame eventsOf _ _ (fun _ _ => rfl)]
    exact (hset _ _ _).trans rfl

/-! ## The page loaders -/

theorem builderIds_ne_empty (p : String) (h : builderIds.contains p = true) : p ≠ "" := by
  intro hp
  subst hp
  exact absurd h (by decide)

theorem getElementById_append_new (dom : List Element) (p content : String)
    (tail : List Element) (hp : p ≠ "") (h : getElementById dom p = none) :
    getElementById (dom ++ createPage p content :: tail) p = some (createPage p content) := by
  unfold getElementById at h ⊢
  rw [if_neg hp] at h ⊢
  rw [List.find?_append, h]
  simp [createPage]

theorem loadPage_idempotent (p : String) (w : World) (hp : p ≠ "") :
    loadPage p (loadPage p w).world = loadPage p w := by
  unfold loadPage
  cases h : getElementById w.nav.dom p with
  | some e => simp only [h]
  | none =>
    simp only []
    cases hmain : w.nav.dom.any (fun e => e.hasClass "main") with
    | true =>
      simp only [if_true, getElementById_append_new w.nav.dom p (pageTemplate p) _ hp h]
    | false =>
      simp only [Bool.false_eq_true, if_false, h, hmain]

/-! ## Headers -/

theorem getHeader_eq_getItem (headers : List (String × String)) (name : String) :
    getHeader headers name = getItem headers name := rfl

theorem getItem_none_of_any_false (hs : List (String × String)) (k : String)
    (h : hs.any (fun kv => kv.1 == k) = false) : getItem hs k = none := by
  induction hs with
  | nil => rfl
  | cons kv rest ih =>
    obtain ⟨a, b⟩ := kv
    simp only [List.any_cons, Bool.or_eq_false_iff, beq_eq_false_iff_ne, ne_eq] at h
    rw [getItem_cons, if_neg (fun hk => h.1 hk.symm)]
    exact ih h.2

theorem getItem_map_replace (hs : List (String × String)) (k v : String)
    (h : hs.any (fun kv => kv.1 == k) = true) :
    getItem (hs.map (fun kv => if kv.1 == k then (k, v) else kv)) k = some v := by
  induction hs with
  | nil => simp at h
  | cons kv rest ih =>
    obtain ⟨a, b⟩ := kv
    by_cases hak : a = k
    · simp only [List.map_cons, hak, beq_self_eq_true, if_true]
      rw [getItem_cons, if_pos rfl]
    · have hne : (a == k) = false := by simp [hak]
      simp only [List.any_cons, hne, Bool.false_or] at h
      simp only [List.map_cons, hne, Bool.false_eq_true, if_false]
      rw [getItem_cons, if_neg (fun hk => hak hk.symm)]
      exact ih h

theorem getHeader_setHeader (hs : List (String × String)) (k v : String) :
    getHeader (setHeader hs k v) k = some v := by
  rw [getHeader_eq_getItem]
  unfold setHeader
  cases h : hs.any (fun kv => kv.1 == k) with
  | true =>
    simp only [if_true]
    exact getItem_map_replace hs k v h
  | false =>
    simp only [Bool.false_eq_true, if_false]
    rw [getItem_append, getItem_none_of_any_false hs k h, getItem_cons, if_pos rfl]
    rfl

theorem setHeader_values (hs : List (String × String)) (k v : String) :
    ∀ kv ∈ setHeader hs k v, kv.1 = k → kv.2 = v := by
  intro kv hkv hk
  unfold setHeader at hkv
  cases h : hs.any (fun kv => kv.1 == k) with
  | true =>
    simp only [h, if_true, List.mem_map] at hkv
    obtain ⟨kv0, _, rfl⟩ := hkv
    by_cases h0 : kv0.1 = k
    · simp [h0]
    · simp only [beq_iff_eq, h0, if_false] at hk
  | false =>
    simp only [h, Bool.false_eq_true, if_false, List.mem_append, List.mem_singleton] at hkv
    rcases hkv with hmem | rfl
    · rw [List.any_eq_false] at h
      have := h kv hmem
      simp only [beq_iff_eq] at this
      exact absurd hk this
    · rfl

/-! ## Activation -/

theorem hasClass_removeClass (e : Element) (c c' : String) :
    (e.removeClass c').hasClass c = (e.hasClass c && (c != c')) := by
  unfold Element.hasClass Element.removeClass
  rw [Bool.eq_iff_iff]
  simp

theorem hasClass_addClass (e : Element) (c c' : String) :
    (e.addClass c').hasClass c = (e.hasClass c || (c == c')) := by
  unfold Element.hasClass Element.addClass
  rw [Bool.eq_iff_iff]
  split
  · rename_i h
    have h' : e.classes.contains c' = true := by simpa using h
    by_cases hc : c = c'
    · subst hc
      simp [h]
    · simp [hc]
  · simp

/-- What "Hide all pages" does to one element. -/
theorem removeClassFromAll_eq_map (sel c : String) (dom : List Element) :
    removeClassFromAll sel c dom = dom.map (fun e => if e.hasClass sel then e.removeClass c else e) :=
  rfl

theorem map_id_removeClassFromAll (sel c : String) (dom : List Element) :
    (removeClassFromAll sel c dom).map (fun e => e.id) = dom.map (fun e => e.id) := by
  unfold removeClassFromAll
  rw [List.map_map]
  apply List.map_congr_left
  intro e _
  simp only [Function.comp]
  split <;> rfl

theorem map_id_updateFirst (pr : Element → Bool) (f : Element → Element)
    (hf : ∀ e, (f e).id = e.id) (dom : List Element) :
    (updateFirst pr f dom).map (fun e => e.id) = dom.map (fun e => e.id) := by
  induction dom with
  | nil => rfl
  | cons e rest ih =>
    unfold updateFirst
    split
    · simp only [List.map_cons, hf]
    · simp only [List.map_cons, ih]

theorem addClass_id (e : Element) (c : String) : (e.addClass c).id = e.id := by
  unfold Element.addClass
  split <;> rfl

theorem getElementById_isSome_iff (dom : List Element) (p : String) :
    (getElementById dom p).isSome = true ↔ p ≠ "" ∧ p ∈ dom.map (fun e => e.id) := by
  unfold getElementById
  by_cases hp : p = ""
  · simp [hp]
  · simp only [hp, if_false, List.find?_isSome, beq_iff_eq, ne_eq, not_false_eq_true, true_and,
      List.mem_map]

theorem map_id_markLink_activate (p : String) (n : Nav) :
    (markLink p (activate p n)).dom.map (fun e => e.id) = n.dom.map (fun e => e.id) := by
  have hact : (activate p n).dom.map (fun e => e.id) = n.dom.map (fun e => e.id) := by
    simp only [activate]
    split
    · simp only [map_id_updateFirst _ _ (fun e => addClass_id e "active"),
        map_id_removeClassFromAll]
    · simp only [map_id_removeClassFromAll]
  simp only [markLink, map_id_updateFirst _ _ (fun e => addClass_id e "active"),
    map_id_removeClassFromAll, hact]

/-- A page whose element exists: `showPage` returns, and the world it leaves
differs from the world before in the activation and the link mark only. -/
theorem showPage_known (p : String) (w : World)
    (hfound : (getElementById w.nav.dom p).isSome = true) :
    showPage p w = ⟨{ w with nav := markLink p (activate p w.nav) }, .returned ()⟩ := by
  have hsome : (getElementById (markLink p (activate p w.nav)).dom p).isSome = true := by
    rw [getElementById_isSome_iff] at hfound ⊢
    rw [map_id_markLink_activate]
    exact hfound
  unfold showPage loadPageContent loadPage
  split
  · cases h : getElementById (markLink p (activate p w.nav)).dom p with
    | some e => rfl
    | none => rw [h] at hsome; exact absurd hsome (by simp)
  · rfl

theorem filter_updateFirst_first (q pr : Element → Bool) (f : Element → Element)
    (l : List Element) (x0 : Element) (hall : ∀ x ∈ l, q x = false)
    (hfind : l.find? pr = some x0) (hq : q (f x0) = true) :
    (updateFirst pr f l).filter q = [f x0] := by
  induction l with
  | nil => simp at hfind
  | cons e rest ih =>
    unfold updateFirst
    by_cases hpr : pr e = true
    · simp only [hpr, if_true]
      simp only [List.find?_cons, hpr, Option.some.injEq] at hfind
      subst hfind
      have hrest : rest.filter q = [] := by
        rw [List.filter_eq_nil_iff]
        intro x hx
        simp [hall x (List.mem_cons_of_mem _ hx)]
      rw [List.filter_cons_of_pos hq, hrest]
    · have hpr' : pr e = false := by simpa using hpr
      simp only [hpr', Bool.false_eq_true, if_false]
      simp only [List.find?_cons, hpr'] at hfind
      have he : ¬ (q e = true) := by simp [hall e (List.mem_cons_self _ _)]
      rw [List.filter_cons_of_neg he]
      exact ih (fun x hx => hall x (List.mem_cons_of_mem _ hx)) hfind

theorem filter_map_fixed (q : Element → Bool) (g : Element → Element) (l : List Element)
    (h1 : ∀ x ∈ l, q x = true → g x = x) (h2 : ∀ x ∈ l, q x = false → q (g x) = false) :
    (l.map g).filter q = l.filter q := by
  induction l with
  | nil => rfl
  | cons e rest ih =>
    have ih' := ih (fun x hx => h1 x (List.mem_cons_of_mem _ hx))
      (fun x hx => h2 x (List.mem_cons_of_mem _ hx))
    cases hq : q e with
    | true =>
      have hg := h1 e (List.mem_cons_self _ _) hq
      simp only [List.map_cons, hg, List.filter_cons, hq, if_true, ih']
    | false =>
      have hg := h2 e (List.mem_cons_self _ _) hq
      simp only [List.map_cons, List.filter_cons, hq, hg, Bool.false_eq_true, if_false, ih']

theorem filter_updateFirst_other (q pr : Element → Bool) (f : Element → Element)
    (l : List Element) (h : ∀ x ∈ l, pr x = true → q x = false ∧ q (f x) = false) :
    (updateFirst pr f l).filter q = l.filter q := by
  induction l with
  | nil => rfl
  | cons e rest ih =>
    unfold updateFirst
    by_cases hpr : pr e = true
    · obtain ⟨hq, hqf⟩ := h e (List.mem_cons_self _ _) hpr
      simp only [hpr, if_true, List.filter_cons, hq, hqf, Bool.false_eq_true, if_false]
    · have hpr' : pr e = false := by simpa using hpr
      simp only [hpr', Bool.false_eq_true, if_false, List.filter_cons,
        ih (fun x hx => h x (List.mem_cons_of_mem _ hx))]

theorem forall_mem_updateFirst (P : Element → Prop) (pr : Element → Bool)
    (f : Element → Element) (hf : ∀ x, P x → P (f x)) (l : List Element)
    (hP : ∀ x ∈ l, P x) : ∀ x ∈ updateFirst pr f l, P x := by
  induction l with
  | nil => exact hP
  | cons e rest ih =>
    unfold updateFirst
    split
    · intro x hx
      rcases List.mem_cons.mp hx with rfl | hx
      · exact hf e (hP e (List.mem_cons_self _ _))
      · exact hP x (List.mem_cons_of_mem _ hx)
    · intro x hx
      rcases List.mem_cons.mp hx with rfl | hx
      · exact hP _ (List.mem_cons_self _ _)
      · exact ih (fun y hy => hP y (List.mem_cons_of_mem _ hy)) x hx

theorem forall_mem_removeClassFromAll (P : Element → Prop) (sel c : String)
    (hf : ∀ x, P x → P (x.removeClass c)) (l : List Element) (hP : ∀ x ∈ l, P x) :
    ∀ x ∈ removeClassFromAll sel c l, P x := by
  intro x hx
  simp only [removeClassFromAll, List.mem_map] at hx
  obtain ⟨x0, hx0, rfl⟩ := hx
  split
  · exact hf x0 (hP x0 hx0)
  · exact hP x0 hx0

/-- The property of one element behind `PagesAreSections`. -/
theorem section_removeActive (x : Element)
    (h : x.hasClass "page" = true → x.hasClass "nav-link" = false ∧ x.href = none) :
    (x.removeClass "active").hasClass "page" = true →
      (x.removeClass "active").hasClass "nav-link" = false ∧ (x.removeClass "active").href = none := by
  intro hp
  rw [hasClass_removeClass] at hp
  have hx : x.hasClass "page" = true := by
    simp only [Bool.and_eq_true] at hp
    exact hp.1
  obtain ⟨h1, h2⟩ := h hx
  refine ⟨?_, h2⟩
  rw [hasClass_removeClass, h1]
  rfl

theorem section_addActive (x : Element)
    (h : x.hasClass "page" = true → x.hasClass "nav-link" = false ∧ x.href = none) :
    (x.addClass "active").hasClass "page" = true →
      (x.addClass "active").hasClass "nav-link" = false ∧ (x.addClass "active").href = none := by
  intro hp
  rw [hasClass_addClass] at hp
  have hx : x.hasClass "page" = true := by
    have hne : ("page" == "active") = false := by decide
    rw [hne, Bool.or_false] at hp
    exact hp
  obtain ⟨h1, h2⟩ := h hx
  refine ⟨?_, ?_⟩
  · rw [hasClass_addClass, h1]
    decide
  · unfold Element.addClass
    split
    · exact h2
    · exact h2

theorem find_removeClassFromAll (sel c p : String) (dom : List Element) :
    (removeClassFromAll sel c dom).find? (fun x => x.id == p)
      = (dom.find? (fun x => x.id == p)).map
          (fun e => if e.hasClass sel then e.removeClass c else e) := by
  unfold removeClassFromAll
  rw [List.find?_map]
  congr 1
  apply congrArg (fun pr => List.find? pr dom)
  funext x
  simp only [Function.comp]
  split <;> rfl

/-- The first half of `showPage` on a page whose element exists. -/
theorem activate_known (p : String) (n : Nav) (e : Element)
    (hfound : getElementById n.dom p = some e) (hclass : e.hasClass "page" = true) :
    (removeClassFromAll "page" "active" n.dom).find? (fun x => x.id == p)
      = some (e.removeClass "active") ∧
    activate p n =
      { n with
        dom := updateFirst (fun x => x.id == p) (fun x => x.addClass "active")
          (removeClassFromAll "page" "active" n.dom)
        currentPage := p } := by
  have hp : p ≠ "" := by
    intro hp
    simp [getElementById, hp] at hfound
  have hfind : n.dom.find? (fun x => x.id == p) = some e := by
    simpa [getElementById, hp] using hfound
  have h1 : (removeClassFromAll "page" "active" n.dom).find? (fun x => x.id == p)
      = some (e.removeClass "active") := by
    rw [find_removeClassFromAll, hfind]
    simp [hclass]
  refine ⟨h1, ?_⟩
  have h2 : getElementById (removeClassFromAll "page" "active" n.dom) p
      = some (e.removeClass "active") := by
    unfold getElementById
    rw [if_neg hp]
    exact h1
  simp only [activate, h2]

/-- The pages shown after the two halves of `showPage`, for a page whose
element exists in a document whose page sections are not links. -/
theorem activePages_markLink_activate (p : String) (n : Nav) (e : Element)
    (hfound : getElementById n.dom p = some e) (hclass : e.hasClass "page" = true)
    (hsec : PagesAreSections n.dom) :
    ((markLink p (activate p n)).dom.filter isActivePage).map (fun x => x.id) = [p] ∧
    (markLink p (activate p n)).currentPage = p ∧
    (markLink p (activate p n)).history = n.history ∧
    (markLink p (activate p n)).hash = n.hash := by
  obtain ⟨hfind, hact⟩ := activate_known p n e hfound hclass
  have hid : e.id = p := by
    have hp : p ≠ "" := by
      intro hp
      simp [getElementById, hp] at hfound
    have h := List.find?_some (by simpa [getElementById, hp] using hfound :
      n.dom.find? (fun x => x.id == p) = some e)
    simpa using h
  -- the document after "Hide all pages"
  have hall1 : ∀ x ∈ removeClassFromAll "page" "active" n.dom, isActivePage x = false := by
    intro x hx
    simp only [removeClassFromAll, List.mem_map] at hx
    obtain ⟨x0, _, rfl⟩ := hx
    unfold isActivePage
    split
    · rw [hasClass_removeClass x0 "active" "active"]
      simp
    · rename_i hnp
      simp [hnp]
  have hsec1 : PagesAreSections (removeClassFromAll "page" "active" n.dom) :=
    forall_mem_removeClassFromAll _ "page" "active" section_removeActive n.dom hsec
  -- the document after "Show target page"
  have hq : isActivePage ((e.removeClass "active").addClass "active") = true := by
    unfold isActivePage
    rw [hasClass_addClass, hasClass_addClass, hasClass_removeClass, hclass]
    simp
  have hfilter2 := filter_updateFirst_first isActivePage (fun x => x.id == p)
    (fun x => x.addClass "active") _ _ hall1 hfind hq
  have hsec2 : PagesAreSections (updateFirst (fun x => x.id == p)
      (fun x => x.addClass "active") (removeClassFromAll "page" "active" n.dom)) :=
    forall_mem_updateFirst _ _ _ section_addActive _ hsec1
  -- the document after the links lost their mark
  have hfilter3 : (removeClassFromAll "nav-link" "active"
      (updateFirst (fun x => x.id == p) (fun x => x.addClass "active")
        (removeClassFromAll "page" "active" n.dom))).filter isActivePage
      = [(e.removeClass "active").addClass "active"] := by
    rw [removeClassFromAll_eq_map, filter_map_fixed, hfilter2]
    · intro x hx hqx
      have hpage : x.hasClass "page" = true := by
        unfold isActivePage at hqx
        simp only [Bool.and_eq_true] at hqx
        exact hqx.1
      simp [(hsec2 x hx hpage).1]
    · intro x _ hqx
      split
      · unfold isActivePage
        rw [hasClass_removeClass x "active" "active"]
        simp
      · exact hqx
  have hsec3 : PagesAreSections (removeClassFromAll "nav-link" "active"
      (updateFirst (fun x => x.id == p) (fun x => x.addClass "active")
        (removeClassFromAll "page" "active" n.dom))) :=
    forall_mem_removeClassFromAll _ "nav-link" "active" section_removeActive _ hsec2
  -- the document after the link of the page got its mark
  have hfilter4 : (updateFirst (fun x => x.href == some ("#" ++ p))
      (fun x => x.addClass "active")
      (removeClassFromAll "nav-link" "active"
        (updateFirst (fun x => x.id == p) (fun x => x.addClass "active")
          (removeClassFromAll "page" "active" n.dom)))).filter isActivePage
      = [(e.removeClass "active").addClass "active"] := by
    rw [filter_updateFirst_other, hfilter3]
    intro x hx hpr
    have hnp : x.hasClass "page" = false := by
      cases hpage : x.hasClass "page" with
      | false => rfl
      | true =>
        have := (hsec3 x hx hpage).2
        rw [this] at hpr
        simp at hpr
    constructor
    · unfold isActivePage
      simp [hnp]
    · unfold isActivePage
      rw [hasClass_addClass, hnp]
      simp
  refine ⟨?_, by rw [hact]; rfl, by rw [hact]; rfl, by rw [hact]; rfl⟩
  rw [hact]
  simp only [markLink]
  rw [hfilter4]
  simp [addClass_id, Element.removeClass, hid]

theorem activate_currentPage (p : String) (n : Nav)
    (hfound : (getElementById n.dom p).isSome = true) : (activate p n).currentPage = p := by
  have hsome : (getElementById (removeClassFromAll "page" "active" n.dom) p).isSome = true := by
    rw [getElementById_isSome_iff] at hfound ⊢
    rw [map_id_removeClassFromAll]
    exact hfound
  simp only [activate]
  cases h : getElementById (removeClassFromAll "page" "active" n.dom) p with
  | some e => rfl
  | none => rw [h] at hsome; exact absurd hsome (by simp)

/-- The redirect of `logout` when `window.app` is bound and the `home` page
exists. -/
theorem logout_redirects_when_bound (env : Env) (w : World) (happ : w.windowApp = true)
    (hhome : (getElementById w.nav.dom "home").isSome = true) :
    (logout env w).world.nav.currentPage = "home" := by
  obtain ⟨_, _, _, hnav, hwin⟩ := logoutRemote_frame env w
  have hsome : (getElementById (clearSession (logoutRemote env w)).nav.dom "home").isSome
      = true := by
    show (getElementById (logoutRemote env w).nav.dom "home").isSome = true
    rw [hnav]
    exact hhome
  have hshow := showPage_known "home" (clearSession (logoutRemote env w)) hsome
  have hbound : (clearSession (logoutRemote env w)).windowApp = true := by
    show (logoutRemote env w).windowApp = true
    rw [hwin]
    exact happ
  unfold logout logoutLocal windowAppNavigate navigateToPage Res.andThen
  simp only [hbound, if_true, hshow]
  show (markLink "home" (activate "home" (logoutRemote env w).nav)).currentPage = "home"
  rw [hnav]
  exact activate_currentPage "home" w.nav hhome

/-! ## The router: claim C4 -/

/-- C4, as stated, fails on the code: `showPage` looks the id up among all the
elements of the document.  In `policiesWorld` the section `code-of-conduct` of
the policies page is an element without the class `page`, and
`loadPageContent` has no case for its id; `navigateToPage` and `showPage` with
that id set `currentPage` to it and leave no page active.  The same holds for
the element `#navMenu` in `menuWorld`. -/
theorem showPage_other_element_sets_currentPage :
    policiesWorld.nav.currentPage = "policies" ∧
    builderIds.contains "code-of-conduct" = false ∧
    (getElementById policiesWorld.nav.dom "code-of-conduct").map (fun e => e.hasClass "page")
      = some false ∧
    policiesWorld.nav.dom.filter (fun e => e.hasClass "page" && e.id == "code-of-conduct")
      = [] ∧
    (navigateToPage "code-of-conduct" policiesWorld).world.nav.currentPage
      = "code-of-conduct" ∧
    (showPage "code-of-conduct" policiesWorld).world.nav.currentPage = "code-of-conduct" ∧
    activePages (showPage "code-of-conduct" policiesWorld).world = [] ∧
    menuWorld.nav.currentPage = "home" ∧
    builderIds.contains "navMenu" = false ∧
    menuWorld.nav.dom.filter (fun e => e.hasClass "page" && e.id == "navMenu") = [] ∧
    (navigateToPage "navMenu" menuWorld).world.nav.currentPage = "navMenu" ∧
    (showPage "navMenu" menuWorld).world.nav.currentPage = "navMenu" := by
  refine ⟨by decide, by decide, by decide, by decide, by decide, by decide, by decide,
    by decide, by decide, by decide, by decide, by decide⟩

/-- C4, amended: for every id for which `loadPageContent` has no case,
`navigateToPage` and `showPage` return.  When `document.getElementById` finds
no element with the id, of any kind, they leave `currentPage` as it was; when
it finds one, a page or not, they set `currentPage` to the id. -/
theorem unknown_page_keeps_currentPage (p : String) (w : World)
    (hbuilder : builderIds.contains p = false) :
    (navigateToPage p w).out = .returned () ∧ (showPage p w).out = .returned () ∧
    (getElementById w.nav.dom p = none →
      (navigateToPage p w).world.nav.currentPage = w.nav.currentPage ∧
      (showPage p w).world.nav.currentPage = w.nav.currentPage) ∧
    ((getElementById w.nav.dom p).isSome = true →
      (navigateToPage p w).world.nav.currentPage = p ∧
      (showPage p w).world.nav.currentPage = p) := by
  have h := navigateToPage_unknown p w hbuilder
  have hshow : (showPage p w).world.nav.currentPage = (activate p w.nav).currentPage := by
    rw [showPage_unknown p w hbuilder]
    simp [markLink]
  refine ⟨h.2.2.2, by rw [showPage_unknown p w hbuilder], ?_, ?_⟩
  · intro hdom
    rw [h.2.2.1, hshow, activate_unknown p w.nav hdom]
    exact ⟨rfl, rfl⟩
  · intro hdom
    rw [h.2.2.1, hshow, activate_currentPage p w.nav hdom]
    exact ⟨rfl, rfl⟩

/-- C4 amended, at concrete inputs: the id `nowhere`, which no element of
`startWorld` carries, and the id `code-of-conduct` in `policiesWorld`. -/
theorem unknown_page_keeps_currentPage_witness :
    ((navigateToPage "nowhere" startWorld).world.nav.currentPage = "home" ∧
      (showPage "nowhere" startWorld).world.nav.currentPage = "home") ∧
    ((navigateToPage "code-of-conduct" policiesWorld).world.nav.currentPage
        = "code-of-conduct" ∧
      (showPage "code-of-conduct" policiesWorld).world.nav.currentPage = "code-of-conduct") :=
  ⟨(unknown_page_keeps_currentPage "nowhere" startWorld (by decide)).2.2.1 (by decide),
   (unknown_page_keeps_currentPage "code-of-conduct" policiesWorld (by decide)).2.2.2
     (by decide)⟩

/-! ## Claims C11 to C20 -/

/-- C11: for every persisted pair of a token and an identity text (both not
empty, so that `checkStoredAuth` restores and a verification is made), when the
backend fails every verification request, the start-up `checkStoredAuth`
followed by the pending calls ends in the session of a store that restored
nothing: `currentUser` and `userRole` are `null`, `isAuthenticated()` is false
and neither persisted entry is left.  Three pending calls suffice, and running
more of them changes nothing. -/
theorem checkStoredAuth_failed_verification (env : Env) (w : World) (token userData : String)
    (fuel : Nat) (hpending : w.pending = [])
    (htoken : getItem w.storage "rtms_token" = some token) (htne : token ≠ "")
    (huser : getItem w.storage "rtms_user" = some userData) (hune : userData ≠ "")
    (hverify : ∀ sent req, req.url = "/api/auth/verify" →
      ∃ m, requestTry (env.backend sent req) = .threw m) :
    (settle env (fuel + 3) (checkStoredAuth env w)).auth.currentUser = .null ∧
    (settle env (fuel + 3) (checkStoredAuth env w)).auth.userRole = .null ∧
    isAuthenticated (settle env (fuel + 3) (checkStoredAuth env w)) = false ∧
    getItem (settle env (fuel + 3) (checkStoredAuth env w)).storage "rtms_token" = none ∧
    getItem (settle env (fuel + 3) (checkStoredAuth env w)).storage "rtms_user" = none := by
  have hc : Cleared (settle env (fuel + 3) (checkStoredAuth env w)) := by
    rcases checkStoredAuth_pending env w token userData hpending htoken htne huser hune
      with h | h | h
    · exact settle_head_logout env (fuel + 2) _ [] h
    · exact settle_head_verifyToken env (fuel + 1) _ token [] h (by simp) hverify
    · unfold settle
      rw [h]
      simp only []
      obtain ⟨_, _, hp⟩ := updateNotifications_frame env
        { checkStoredAuth env w with pending := [Task.verifyToken token] }
      refine settle_head_verifyToken env fuel _ token
        (if classifiedUnauthorized env "/notifications"
            { method := none, headers := none, body := none }
            { checkStoredAuth env w with pending := [Task.verifyToken token] }
          then [Task.logout] else []) ?_ ?_ hverify
      · unfold runTask
        rw [hp]
        split <;> rfl
      · intro t ht
        split at ht
        · simpa using ht
        · simp at ht
  obtain ⟨h1, h2, h3, h4⟩ := hc
  refine ⟨h1, h2, ?_, h3, h4⟩
  unfold isAuthenticated
  rw [h1]
  rfl

/-- C11 at a concrete input: the stored pair of `storedNullWorld` against
`expiredEnv`, whose backend answers the verification with status 401. -/
theorem checkStoredAuth_failed_verification_witness :
    (settle expiredEnv 3 (checkStoredAuth expiredEnv storedNullWorld)).auth.currentUser = .null ∧
    (settle expiredEnv 3 (checkStoredAuth expiredEnv storedNullWorld)).auth.userRole = .null ∧
    isAuthenticated (settle expiredEnv 3 (checkStoredAuth expiredEnv storedNullWorld)) = false ∧
    getItem (settle expiredEnv 3 (checkStoredAuth expiredEnv storedNullWorld)).storage
      "rtms_token" = none ∧
    getItem (settle expiredEnv 3 (checkStoredAuth expiredEnv storedNullWorld)).storage
      "rtms_user" = none :=
  checkStoredAuth_failed_verification expiredEnv storedNullWorld "tok" "null" 0 rfl
    (by decide) (by decide) (by decide) (by decide)
    (by
      intro sent req h
      refine ⟨"HTTP 401: Unauthorized", ?_⟩
      show requestTry (if req.url = "/api/auth/verify" then _ else _) = _
      rw [if_pos h]
      decide)

/-- C12, evaluated on the code: no script calls `document.dispatchEvent`.
For every platform and every world, `handleLogin`, `handleSocialLogin` and
`logout` leave the list of dispatched events as it was.  After the successful
login of `alice` from `startWorld` the session is authenticated, no event was
dispatched and the click listeners of `handleAuthLogin` were not attached;
after the logout of `studentWorld` the session is cleared and no event was
dispatched. -/
theorem session_transitions_dispatch_nothing :
    (∀ (env : Env) (email password : String) (rememberMe : Bool) (w : World),
      (handleLogin env email password rememberMe w).world.dispatched = w.dispatched) ∧
    (∀ (env : Env) (provider : String) (w : World),
      (handleSocialLogin env provider w).world.dispatched = w.dispatched) ∧
    (∀ (env : Env) (w : World), (logout env w).world.dispatched = w.dispatched) ∧
    isAuthenticated
      (handleLogin acceptingEnv "alice@example.org" "secret" false startWorld).world = true ∧
    (handleLogin acceptingEnv "alice@example.org" "secret" false startWorld).world.dispatched
      = [] ∧
    (handleLogin acceptingEnv "alice@example.org" "secret" false startWorld).world.gateListeners
      = 0 ∧
    isAuthenticated (handleSocialLogin acceptingEnv "google" startWorld).world = true ∧
    (handleSocialLogin acceptingEnv "google" startWorld).world.dispatched = [] ∧
    isAuthenticated (logout acceptingEnv studentWorld).world = false ∧
    (logout acceptingEnv studentWorld).world.dispatched = [] := by
  refine ⟨?_, ?_, ?_, by decide, by decide, by decide, by decide, by decide, by decide,
    by decide⟩
  · intro env email password rememberMe w
    exact congrArg Prod.fst (eventsOf_handleLogin env email password rememberMe w)
  · intro env provider w
    exact congrArg Prod.fst (eventsOf_handleSocialLogin env provider w)
  · intro env w
    exact congrArg Prod.fst (eventsOf_logout env w)

/-- C13, evaluated on the code: `profileWorld` is the session of `alice` on the
auth-required page `profile`, the `home` page exists, and `window.app` is not
bound.  `logout()` clears the session and then throws at
`window.app.navigateToPage('home')`: the current page is still `profile`.  No
`auth:logout` event is dispatched, so `handleAuthLogout` does not run either.
Were `window.app` bound, the same call would end on `home` in every world that
has the `home` page. -/
theorem logout_on_profile_stays_on_profile :
    (∀ (env : Env) (w : World), w.windowApp = true →
      (getElementById w.nav.dom "home").isSome = true →
      (logout env w).world.nav.currentPage = "home") ∧
    profileWorld.nav.currentPage = "profile" ∧ requiresAuth "profile" = true ∧
    isAuthenticated profileWorld = true ∧ profileWorld.windowApp = false ∧
    (getElementById profileWorld.nav.dom "home").isSome = true ∧
    (logout acceptingEnv profileWorld).out = .threw appUnbound ∧
    isAuthenticated (logout acceptingEnv profileWorld).world = false ∧
    getAuthToken (logout acceptingEnv profileWorld).world = none ∧
    (logout acceptingEnv profileWorld).world.nav.currentPage = "profile" ∧
    requiresAuth (logout acceptingEnv profileWorld).world.nav.currentPage = true ∧
    (logout acceptingEnv profileWorld).world.dispatched = [] := by
  refine ⟨logout_redirects_when_bound, ?_⟩
  decide

/-- C14: for every page id and every world, `loadPageContent` called twice
with nothing in between ends as the first call did, in the same world: the
second call finds the element that the first call created or found and leaves
it as it is, so nothing is built twice. -/
theorem loadPageContent_idempotent (p : String) (w : World) :
    loadPageContent p (loadPageContent p w).world = loadPageContent p w := by
  unfold loadPageContent
  cases h : builderIds.contains p with
  | true =>
    simp only [if_true]
    exact loadPage_idempotent p w (builderIds_ne_empty p h)
  | false => simp only [Bool.false_eq_true, if_false]

/-- C15, as stated, fails on the code: `alice` and `bob` have different names,
and the `dashboard` page built in the session of the one is the page built in
the session of the other, the fixed template with its greeting for John; the
same holds for `profile`.  With `bob` on the built `dashboard`,
`handleAuthLogin` leaves the document as it is. -/
theorem loadPageContent_same_for_two_identities :
    studentWorld.auth.currentUser = alice ∧ bobWorld.auth.currentUser = bob ∧
    (alice.getProp "firstName").toOption = some (.str "Alice") ∧
    (bob.getProp "firstName").toOption = some (.str "Bob") ∧
    getElementById (loadPageContent "dashboard" studentWorld).world.nav.dom "dashboard"
      = getElementById (loadPageContent "dashboard" bobWorld).world.nav.dom "dashboard" ∧
    getElementById (loadPageContent "dashboard" bobWorld).world.nav.dom "dashboard"
      = some (createPage "dashboard" "<div class=\"dashboard-title\">Welcome back, John!</div>") ∧
    getElementById (loadPageContent "profile" studentWorld).world.nav.dom "profile"
      = getElementById (loadPageContent "profile" bobWorld).world.nav.dom "profile" ∧
    bobDashboardWorld.nav.currentPage = "dashboard" ∧
    (handleAuthLogin bob bobDashboardWorld).world.nav.dom = bobDashboardWorld.nav.dom := by
  decide

/-- C15, amended: the content that `loadPageContent` builds does not depend on
the session.  For every page id (so for `dashboard` and `profile`), every world
and every identity, role and persisted entries put in place of those of the
world, the call ends the same way with the same document: two sessions with
different identities yield the same built content, the fixed template. -/
theorem loadPageContent_ignores_session (p : String) (w : World) (a : Auth)
    (storage : List (String × String)) :
    (loadPageContent p { w with auth := a, storage := storage }).world.nav
      = (loadPageContent p w).world.nav ∧
    (loadPageContent p { w with auth := a, storage := storage }).out
      = (loadPageContent p w).out := by
  unfold loadPageContent loadPage
  simp only []
  split
  · split
    · exact ⟨rfl, rfl⟩
    · split <;> exact ⟨rfl, rfl⟩
  · exact ⟨rfl, rfl⟩

/-- C16, evaluated on the code: the gate lists name three ids for which the
switch of `loadPageContent` has no case.  `authPages` and `staffPages` are the
lists of `requiresAuth` and `requiresStaffRole`; no id has two cases; the gated
ids without a case are `manage-chapters`, `analytics` and `settings`, and for
each of them `loadPageContent` does nothing in every world. -/
theorem gated_ids_without_builder :
    (∀ p, requiresAuth p = authPages.contains p) ∧
    (∀ p, requiresStaffRole p = staffPages.contains p) ∧
    builderIds.Nodup ∧
    authPages.filter (fun p => builderIds.count p != 1)
      = ["manage-chapters", "analytics", "settings"] ∧
    staffPages.filter (fun p => builderIds.count p != 1)
      = ["manage-chapters", "analytics", "settings"] ∧
    builderIds.count "manage-chapters" = 0 ∧ builderIds.count "analytics" = 0 ∧
    builderIds.count "settings" = 0 ∧
    (∀ w : World, loadPageContent "manage-chapters" w = ⟨w, .returned ()⟩) ∧
    (∀ w : World, loadPageContent "analytics" w = ⟨w, .returned ()⟩) ∧
    (∀ w : World, loadPageContent "settings" w = ⟨w, .returned ()⟩) := by
  refine ⟨fun _ => rfl, fun _ => rfl, by decide, by decide, by decide, by decide, by decide,
    by decide, fun _ => rfl, fun _ => rfl, fun _ => rfl⟩

/-- C18: `request` hands to `fetch` the configuration built from the token it
holds and the options.  When the token is truthy, the `Authorization` property
of the headers is `Bearer ` followed by the token, for every options argument,
those with headers of their own included, and no entry of that name has
another value.  When the token is falsy and the caller's headers have no
`Authorization` property, the request has none. -/
theorem request_authorization_header (env : Env) (endpoint : String) (o : Options) (w : World) :
    (request env endpoint o w).world.api.sent
      = buildConfig w.api.token ("/api" ++ endpoint) o :: w.api.sent ∧
    (w.api.token.truthy = true →
      getHeader (buildConfig w.api.token ("/api" ++ endpoint) o).headers "Authorization"
        = some ("Bearer " ++ w.api.token.toStr) ∧
      ∀ kv ∈ (buildConfig w.api.token ("/api" ++ endpoint) o).headers,
        kv.1 = "Authorization" → kv.2 = "Bearer " ++ w.api.token.toStr) ∧
    (w.api.token.truthy = false →
      getHeader (o.headers.getD []) "Authorization" = none →
      getHeader (buildConfig w.api.token ("/api" ++ endpoint) o).headers "Authorization"
        = none) := by
  refine ⟨by rw [request_world], ?_, ?_⟩
  · intro ht
    unfold buildConfig
    simp only [ht, if_true]
    exact ⟨getHeader_setHeader _ _ _, setHeader_values _ _ _⟩
  · intro ht hnone
    unfold buildConfig
    simp only [ht, Bool.false_eq_true, if_false]
    cases ho : o.headers with
    | none => rfl
    | some h =>
      rw [ho] at hnone
      exact hnone

/-- C18 at concrete inputs: the verification of the token `other` sent while
the client holds `tok`, and a plain request sent while it holds none. -/
theorem request_authorization_header_witness :
    (getHeader (buildConfig studentWorld.api.token ("/api" ++ "/auth/verify")
        { method := none, headers := some [("Authorization", "Bearer other")],
          body := none }).headers "Authorization"
      = some ("Bearer " ++ studentWorld.api.token.toStr) ∧
    ∀ kv ∈ (buildConfig studentWorld.api.token ("/api" ++ "/auth/verify")
        { method := none, headers := some [("Authorization", "Bearer other")],
          body := none }).headers,
      kv.1 = "Authorization" → kv.2 = "Bearer " ++ studentWorld.api.token.toStr) ∧
    getHeader (buildConfig startWorld.api.token ("/api" ++ "/chapters") noOptions).headers
      "Authorization" = none :=
  ⟨(request_authorization_header acceptingEnv "/auth/verify"
      { method := none, headers := some [("Authorization", "Bearer other")], body := none }
      studentWorld).2.1 (by decide),
   (request_authorization_header acceptingEnv "/chapters" noOptions startWorld).2.2
      (by decide) (by decide)⟩

/-- C19, as stated, fails on the code: `emptyBodyEnv` answers the logout
request with status 200 and an empty body.  The status is a 2xx status other
than 204, `response.json()` rejects, and `request` throws; `APIService.logout`
does not get to clear its token. -/
theorem request_2xx_without_json_throws :
    fetchAnswer emptyBodyEnv "/auth/logout"
        { method := some "POST", headers := none, body := none } studentWorld
      = .response 200 "OK" (.threw "Unexpected end of JSON input") ∧
    statusOk 200 = true ∧
    (request emptyBodyEnv "/auth/logout"
        { method := some "POST", headers := none, body := none } studentWorld).out
      = .threw "Unexpected end of JSON input" ∧
    (APIService.logout emptyBodyEnv studentWorld).out = .threw "Unexpected end of JSON input" ∧
    (APIService.logout emptyBodyEnv studentWorld).world.api.token = .str "tok" := by
  decide

/-- C19, amended: for every response with a 2xx status, `request` returns the
sentinel when the status is 204, whatever the body; for every other 2xx status
it returns the parsed body when the body is JSON, and throws when
`response.json()` rejects. -/
theorem request_2xx (env : Env) (endpoint : String) (o : Options) (w : World) (status : Nat)
    (statusText : String) (body : Outcome JsVal)
    (hanswer : fetchAnswer env endpoint o w = .response status statusText body)
    (hok : statusOk status = true) :
    (status = 204 → (request env endpoint o w).out = .returned successSentinel) ∧
    (status ≠ 204 → ∀ v, body = .returned v → (request env endpoint o w).out = .returned v) ∧
    (status ≠ 204 → ∀ m, body = .threw m → ∃ e, (request env endpoint o w).out = .threw e) := by
  have hout := request_out env endpoint o w
  rw [hanswer] at hout
  refine ⟨?_, ?_, ?_⟩
  · intro h
    subst h
    rw [hout]
    rfl
  · intro h v hv
    subst hv
    rw [hout]
    simp [requestTry, hok, h]
  · intro h m hm
    subst hm
    rw [hout]
    simp [requestTry, hok, h]

/-- C19 amended, at concrete inputs: the answers of `acceptingEnv` (status 200
with a JSON body) and of `rejectingEnv` (status 204) to the logout request. -/
theorem request_2xx_witness :
    ((200 = 204 →
        (request acceptingEnv "/auth/logout" noOptions startWorld).out
          = .returned successSentinel) ∧
      (200 ≠ 204 → ∀ v, Outcome.returned successSentinel = .returned v →
        (request acceptingEnv "/auth/logout" noOptions startWorld).out = .returned v) ∧
      (200 ≠ 204 → ∀ m, Outcome.returned successSentinel = .threw m →
        ∃ e, (request acceptingEnv "/auth/logout" noOptions startWorld).out = .threw e)) ∧
    (request rejectingEnv "/auth/logout" noOptions startWorld).out
      = .returned successSentinel :=
  ⟨request_2xx acceptingEnv "/auth/logout" noOptions startWorld 200 "OK"
      (.returned successSentinel) (by decide) (by decide),
   (request_2xx rejectingEnv "/auth/logout" noOptions startWorld 204 "No Content"
      (.threw "SyntaxError: Unexpected end of JSON input") (by decide) (by decide)).1 rfl⟩

/-- C20, evaluated on the code: a response with a status outside 2xx makes
`request` throw, with the `message` of a JSON object body when that is truthy,
and with the generic message when the body is not JSON.  But for the JSON body
`null` (status 500) the error raised in the `try` block is the `TypeError` of
reading `message` from `null`, not the generic message: the fallback to an
empty object covers only a body that does not parse. -/
theorem request_non2xx_null_body :
    (∀ (env : Env) (endpoint : String) (o : Options) (w : World) (status : Nat)
        (statusText : String) (body : Outcome JsVal),
      fetchAnswer env endpoint o w = .response status statusText body →
      statusOk status = false → ∃ e, (request env endpoint o w).out = .threw e) ∧
    (∀ (status : Nat) (statusText : String) (fields : JsFields),
      statusOk status = false → (fields.lookup "message").truthy = true →
      requestTry (.response status statusText (.returned (.obj fields)))
        = .threw (fields.lookup "message").toStr) ∧
    (∀ (status : Nat) (statusText m : String), statusOk status = false →
      requestTry (.response status statusText (.threw m))
        = .threw ("HTTP " ++ toString status ++ ": " ++ statusText)) ∧
    statusOk 500 = false ∧
    requestTry (.response 500 "Internal Server Error" (.returned .null))
      = .threw "Cannot read properties of null (reading 'message')" ∧
    requestTry (.response 500 "Internal Server Error" (.returned .null))
      ≠ .threw "HTTP 500: Internal Server Error" := by
  refine ⟨?_, ?_, ?_, by decide, by decide, by decide⟩
  · intro env endpoint o w status statusText body hanswer hok
    have hout := request_out env endpoint o w
    rw [hanswer] at hout
    have htry : ∃ m, requestTry (.response status statusText body) = .threw m := by
      unfold requestTry
      simp only [hok, Bool.not_false, if_true]
      split
      · exact ⟨_, rfl⟩
      · exact ⟨_, rfl⟩
    obtain ⟨m, hm⟩ := htry
    rw [hm] at hout
    exact ⟨_, hout⟩
  · intro status statusText fields hok hm
    simp [requestTry, hok, JsVal.getProp, JsVal.orElse, hm]
  · intro status statusText m hok
    simp [requestTry, hok, JsVal.getProp, JsFields.lookup, JsVal.orElse, JsVal.truthy,
      JsVal.toStr]

/-- C17: for every `popstate` event whose state carries a page id `p` whose
element exists and is a page (in a document whose page sections are not
links), the listener returns, `p` is the current page and the one active
page, the history and the fragment are as before (nothing is pushed), the
interface of the session store is as before (no prompt, no notice), and the
outcome for the router does not depend on the session (no authorization
check).  An event whose state is falsy, or whose state has a falsy page,
leaves the world as it is. -/
theorem popstate_replays_page (state : JsVal) (p : String) (w : World) (e : Element)
    (hstate : state.truthy = true) (hpage : state.getProp "page" = .ok (.str p))
    (hfound : getElementById w.nav.dom p = some e) (hclass : e.hasClass "page" = true)
    (hsec : PagesAreSections w.nav.dom) :
    (onPopState state w).out = .returned () ∧
    (onPopState state w).world.nav.currentPage = p ∧
    activePages (onPopState state w).world = [p] ∧
    (onPopState state w).world.nav.history = w.nav.history ∧
    (onPopState state w).world.nav.hash = w.nav.hash ∧
    (onPopState state w).world.ui = w.ui ∧
    (∀ a : Auth, (onPopState state { w with auth := a }).world.nav
      = (onPopState state w).world.nav) ∧
    (∀ s : JsVal, s.truthy = false → onPopState s w = ⟨w, .returned ()⟩) ∧
    (∀ s page : JsVal, s.getProp "page" = .ok page → page.truthy = false →
      onPopState s w = ⟨w, .returned ()⟩) := by
  have hp : p ≠ "" := by
    intro hp
    simp [getElementById, hp] at hfound
  have hkey : ∀ w' : World, w'.nav = w.nav →
      onPopState state w' = ⟨{ w' with nav := markLink p (activate p w.nav) }, .returned ()⟩ := by
    intro w' hnav
    have hsome : (getElementById w'.nav.dom p).isSome = true := by
      rw [hnav, hfound]
      rfl
    have hshow := showPage_known p w' hsome
    rw [hnav] at hshow
    have hpt : (JsVal.str p).truthy = true := by simp [JsVal.truthy, hp]
    unfold onPopState
    simp only [hstate, hpage, hpt, if_true]
    exact hshow
  obtain ⟨hactive, hcur, hhist, hhash⟩ :=
    activePages_markLink_activate p w.nav e hfound hclass hsec
  rw [hkey w rfl]
  refine ⟨rfl, hcur, hactive, hhist, hhash, rfl, ?_, ?_, ?_⟩
  · intro a
    rw [hkey { w with auth := a } rfl]
  · intro s hs
    unfold onPopState
    simp only [hs, Bool.false_eq_true, if_false]
  · intro s page hs hpg
    unfold onPopState
    simp only [hs, hpg, Bool.false_eq_true, if_false]
    split <;> rfl

/-- C17 at a concrete input: the state that `navigateToPage('home')` pushed,
replayed in the world of a student on the page `profile`. -/
theorem popstate_replays_page_witness :
    (onPopState (.obj (.cons "page" (.str "home") .nil)) profileWorld).out = .returned () ∧
    (onPopState (.obj (.cons "page" (.str "home") .nil)) profileWorld).world.nav.currentPage
      = "home" ∧
    activePages (onPopState (.obj (.cons "page" (.str "home") .nil)) profileWorld).world
      = ["home"] ∧
    (onPopState (.obj (.cons "page" (.str "home") .nil)) profileWorld).world.nav.history
      = profileWorld.nav.history ∧
    (onPopState (.obj (.cons "page" (.str "home") .nil)) profileWorld).world.nav.hash
      = profileWorld.nav.hash ∧
    (onPopState (.obj (.cons "page" (.str "home") .nil)) profileWorld).world.ui
      = profileWorld.ui ∧
    (∀ a : Auth,
      (onPopState (.obj (.cons "page" (.str "home") .nil))
        { profileWorld with auth := a }).world.nav
      = (onPopState (.obj (.cons "page" (.str "home") .nil)) profileWorld).world.nav) ∧
    (∀ s : JsVal, s.truthy = false → onPopState s profileWorld = ⟨profileWorld, .returned ()⟩) ∧
    (∀ s page : JsVal, s.getProp "page" = .ok page → page.truthy = false →
      onPopState s profileWorld = ⟨profileWorld, .returned ()⟩) :=
  popstate_replays_page (.obj (.cons "page" (.str "home") .nil)) "home" profileWorld
    { id := "home", classes := ["page"], href := none, html := "" }
    (by decide) rfl (by decide) (by decide) (by unfold PagesAreSections; decide)

/-! ## Headers, menus and the chain of forced logouts -/

theorem getItem_map_replace_ne (hs : List (String × String)) (k k' v : String) (hne : k' ≠ k) :
    getItem (hs.map (fun kv => if kv.1 == k then (k, v) else kv)) k' = getItem hs k' := by
  induction hs with
  | nil => rfl
  | cons kv rest ih =>
    obtain ⟨a, b⟩ := kv
    by_cases hak : a = k
    · simp only [List.map_cons, hak, beq_self_eq_true, if_true]
      rw [getItem_cons, getItem_cons, if_neg hne, if_neg hne]
      exact ih
    · have hf : (a == k) = false := by simp [hak]
      simp only [List.map_cons, hf, Bool.false_eq_true, if_false]
      rw [getItem_cons, getItem_cons, ih]

/-- Writing one header leaves the headers of every other name as they are. -/
theorem getHeader_setHeader_ne (hs : List (String × String)) (k k' v : String) (hne : k' ≠ k) :
    getHeader (setHeader hs k v) k' = getHeader hs k' := by
  rw [getHeader_eq_getItem, getHeader_eq_getItem]
  unfold setHeader
  cases h : hs.any (fun kv => kv.1 == k) with
  | true =>
    simp only [if_true]
    exact getItem_map_replace_ne hs k k' v hne
  | false =>
    simp only [Bool.false_eq_true, if_false]
    rw [getItem_append, getItem_cons, if_neg hne]
    cases getItem hs k' <;> rfl

theorem append_ne_empty (a b : String) (h : a ≠ "") : a ++ b ≠ "" := by
  intro heq
  apply h
  have hd : (a ++ b).data = [] := by rw [heq]
  rw [String.data_append] at hd
  exact String.ext (List.append_eq_nil.1 hd).1

theorem updateNavigation_menus (w : World) :
    visibleMenus (updateNavigation w).ui =
      (if w.auth.userRole = .str "staff" then ["staffNavMenu"] else ["studentNavMenu"]) ∧
    (updateNavigation w).auth = w.auth := by
  unfold updateNavigation
  by_cases h : w.auth.userRole = .str "staff"
  · simp [h, visibleMenus]
  · simp [h, visibleMenus]

theorem setupRealtime_frame (env : Env) (token : JsVal) (w : World) :
    (setupRealtime env token w).ui = w.ui ∧ (setupRealtime env token w).auth = w.auth := by
  unfold setupRealtime
  split <;> exact ⟨rfl, rfl⟩

theorem logoutLocal_frame (w : World) :
    (logoutLocal w).world.api = w.api ∧ (logoutLocal w).world.pending = w.pending ∧
    (logoutLocal w).world.online = w.online ∧
    visibleMenus (logoutLocal w).world.ui = ["publicNavMenu"] := by
  unfold logoutLocal windowAppNavigate Res.andThen
  cases happ : w.windowApp with
  | false => simp [clearSession, happ, visibleMenus]
  | true =>
    have hw : (clearSession w).windowApp = true := happ
    simp only [hw, if_true]
    split
    · simp only [showToast]
      rw [navigateToPage_frame]
      simp [clearSession, visibleMenus]
    · rw [navigateToPage_frame]
      simp [clearSession, visibleMenus]

theorem requestTry_unauthorizedEnv (endpoint : String) (o : Options) (w : World) :
    requestTry (fetchAnswer unauthorizedEnv endpoint o w) = .threw "HTTP 401: Unauthorized" := by
  show requestTry (.response 401 "Unauthorized"
    (.threw "SyntaxError: Unexpected end of JSON input")) = _
  decide

/-- One forced logout against `unauthorizedEnv`: its request to `/auth/logout`
is answered with 401, which puts the next forced logout in the queue. -/
theorem logout_unauthorizedEnv (w : World) (hon : w.online = true) :
    (logout unauthorizedEnv w).world.pending = w.pending ++ [Task.logout] ∧
    (logout unauthorizedEnv w).world.online = true ∧
    (logout unauthorizedEnv w).world.api.sent =
      buildConfig w.api.token ("/api" ++ "/auth/logout")
        { method := some "POST", headers := none, body := none } :: w.api.sent := by
  have htry := requestTry_unauthorizedEnv "/auth/logout"
    { method := some "POST", headers := none, body := none } w
  have hauth : isAuthError "HTTP 401: Unauthorized" = true := by decide
  have hout := request_out unauthorizedEnv "/auth/logout"
    { method := some "POST", headers := none, body := none } w
  rw [htry] at hout
  have hworld := request_world unauthorizedEnv "/auth/logout"
    { method := some "POST", headers := none, body := none } w
  have hcl : classifiedUnauthorized unauthorizedEnv "/auth/logout"
      { method := some "POST", headers := none, body := none } w = true := by
    unfold classifiedUnauthorized
    rw [htry]
    simp [hon, hauth]
  rw [hcl] at hworld
  simp only [hon, hauth, if_true] at hout
  simp only [if_true] at hworld
  have hremote : (logoutRemote unauthorizedEnv w).pending = w.pending ++ [Task.logout] ∧
      (logoutRemote unauthorizedEnv w).online = w.online ∧
      (logoutRemote unauthorizedEnv w).api.sent =
        buildConfig w.api.token ("/api" ++ "/auth/logout")
          { method := some "POST", headers := none, body := none } :: w.api.sent := by
    unfold logoutRemote APIService.logout Res.andThen
    simp [hout, hworld]
  obtain ⟨hapi, hpending, honline, _⟩ := logoutLocal_frame (logoutRemote unauthorizedEnv w)
  unfold logout
  rw [hapi, hpending, honline, hremote.1, hremote.2.1, hremote.2.2]
  exact ⟨rfl, hon, rfl⟩

theorem settle_unauthorizedEnv (n : Nat) (w : World) (hp : w.pending = [Task.logout])
    (hon : w.online = true) :
    (settle unauthorizedEnv n w).pending = [Task.logout] ∧
    (settle unauthorizedEnv n w).api.sent.length = w.api.sent.length + n ∧
    logoutRequests (settle unauthorizedEnv n w) = logoutRequests w + n := by
  induction n generalizing w with
  | zero => exact ⟨hp, rfl, rfl⟩
  | succ n ih =>
    obtain ⟨h1, h2, h3⟩ := logout_unauthorizedEnv { w with pending := [] } hon
    have h3 : (logout unauthorizedEnv { w with pending := [] }).world.api.sent =
        buildConfig w.api.token ("/api" ++ "/auth/logout")
          { method := some "POST", headers := none, body := none } :: w.api.sent := h3
    have hstep : settle unauthorizedEnv (n + 1) w =
        settle unauthorizedEnv n (logout unauthorizedEnv { w with pending := [] }).world := by
      rw [settle, hp]
      rfl
    obtain ⟨i1, i2, i3⟩ := ih (logout unauthorizedEnv { w with pending := [] }).world h1 h2
    rw [hstep]
    refine ⟨i1, ?_, ?_⟩
    · rw [i2, h3]
      simp only [List.length_cons]
      omega
    · rw [i3]
      unfold logoutRequests
      rw [h3, List.countP_cons]
      have hurl : ((buildConfig w.api.token ("/api" ++ "/auth/logout")
          { method := some "POST", headers := none, body := none }).url
            == "/api/auth/logout") = true := by
        show (("/api" ++ "/auth/logout" : String) == "/api/auth/logout") = true
        decide
      simp only [hurl, if_true]
      omega

/-- A call of `setAuthenticatedUser` that returns went through
`updateNavigation` and `setupRealtime`, with the role of the user written. -/
theorem setAuthenticatedUser_returned (env : Env) (user token : JsVal) (w : World)
    (h : (setAuthenticatedUser env user token w).out = .returned ()) :
    ∃ w4 : World,
      (setAuthenticatedUser env user token w).world = setupRealtime env token (updateNavigation w4)
      ∧ user.getProp "role" = .ok w4.auth.userRole := by
  unfold setAuthenticatedUser Res.andThen at h ⊢
  cases hrole : user.getProp "role" with
  | error e => simp [hrole] at h
  | ok role =>
    simp only [hrole] at h ⊢
    have hframe := (updateAuthUI_frame
      { w with
        auth := { currentUser := user, userRole := role, loginType := w.auth.loginType }
        storage := setItem (setItem w.storage "rtms_token" token.toStr) "rtms_user"
          (env.stringify user) }).1
    split
    · refine ⟨_, rfl, ?_⟩
      exact congrArg (fun r => Except.ok r) (congrArg (fun x => x.2.1) hframe).symm
    · rename_i e he
      simp [he] at h

/-! ## Claims C21 to C30 -/

/-- C21, evaluated on the code: `request` classifies a failure by the text of
its message, not by the status.  For every online world, a failure whose
message holds neither `401` nor `Unauthorized` is thrown as it is and no
logout is started.  `invalidCredentialsEnv` answers the login with status 401
and the message `Invalid credentials`: `request` throws that message, starts
no logout, and the session of `studentWorld` is still there once the pending
calls have run.  The same status with a body that is not JSON, as
`rejectingEnv` sends it, is classified as unauthorized. -/
theorem request_401_with_message_not_unauthorized :
    (∀ (env : Env) (endpoint : String) (o : Options) (w : World) (m : String),
      w.online = true → requestTry (fetchAnswer env endpoint o w) = .threw m →
      isAuthError m = false →
      (request env endpoint o w).out = .threw m ∧
      (request env endpoint o w).world.pending = w.pending) ∧
    studentWorld.online = true ∧
    fetchAnswer invalidCredentialsEnv "/auth/login" noOptions studentWorld =
      .response 401 "Unauthorized"
        (.returned (.obj (.cons "message" (.str "Invalid credentials") .nil))) ∧
    (request invalidCredentialsEnv "/auth/login" noOptions studentWorld).out =
      .threw "Invalid credentials" ∧
    (request invalidCredentialsEnv "/auth/login" noOptions studentWorld).world.pending = [] ∧
    sessionOf (settle invalidCredentialsEnv 4
      (request invalidCredentialsEnv "/auth/login" noOptions studentWorld).world) =
      sessionOf studentWorld ∧
    (request rejectingEnv "/auth/login" noOptions studentWorld).out =
      .threw "Session expired. Please log in again." ∧
    (request rejectingEnv "/auth/login" noOptions studentWorld).world.pending =
      [Task.logout] := by
  refine ⟨?_, by decide, by decide, by decide, by decide, by decide, by decide, by decide⟩
  intro env endpoint o w m hon hm hauth
  constructor
  · rw [request_out, hm]
    simp [hon, hauth]
  · rw [request_world]
    simp [classifiedUnauthorized, hm, hauth]

/-- C22, evaluated on the code: `request` classifies a failure by the text of
its message, not by the status.  For every online world, a failure whose
message holds `401` or `Unauthorized` starts a logout and is thrown as
`Session expired. Please log in again.`, whatever the status.  `notFoundEnv`
answers with status 404 and the message `Challenge 4012 not found`: the
message does not reach the caller, a logout is started, and the session of
`studentWorld` is cleared once it has run. -/
theorem request_404_with_digits_forces_logout :
    (∀ (env : Env) (endpoint : String) (o : Options) (w : World) (m : String),
      w.online = true → requestTry (fetchAnswer env endpoint o w) = .threw m →
      isAuthError m = true →
      (request env endpoint o w).out = .threw "Session expired. Please log in again." ∧
      (request env endpoint o w).world.pending = w.pending ++ [Task.logout]) ∧
    studentWorld.online = true ∧
    fetchAnswer notFoundEnv "/challenges/4012" noOptions studentWorld =
      .response 404 "Not Found"
        (.returned (.obj (.cons "message" (.str "Challenge 4012 not found") .nil))) ∧
    requestTry (fetchAnswer notFoundEnv "/challenges/4012" noOptions studentWorld) =
      .threw "Challenge 4012 not found" ∧
    (request notFoundEnv "/challenges/4012" noOptions studentWorld).out =
      .threw "Session expired. Please log in again." ∧
    (request notFoundEnv "/challenges/4012" noOptions studentWorld).world.pending =
      [Task.logout] ∧
    isAuthenticated (settle notFoundEnv 4
      (request notFoundEnv "/challenges/4012" noOptions studentWorld).world) = false ∧
    getAuthToken (settle notFoundEnv 4
      (request notFoundEnv "/challenges/4012" noOptions studentWorld).world) = none := by
  refine ⟨?_, by decide, by decide, by decide, by decide, by decide, by decide, by decide⟩
  intro env endpoint o w m hon hm hauth
  constructor
  · rw [request_out, hm]
    simp [hon, hauth]
  · rw [request_world]
    simp [classifiedUnauthorized, hm, hauth, hon]

/-- C23: for every provider and every requested role, `socialLogin` yields
a record with `success` set, the token `demo_social_token_` followed by the
time, which is truthy, and a user whose role is the requested role, whose
email is `user@`, the provider and `.com`, and whose avatar address ends with
the provider.  In every world `handleSocialLogin` returns, and the session it
leaves has that user, with the login type selected before the call as its
role. -/
theorem socialLogin_identity (env : Env) (provider role : String) (w : World) :
    (APIService.socialLogin env provider role).getProp "success" = .ok (.bool true) ∧
    (APIService.socialLogin env provider role).getProp "token" =
      .ok (.str ("demo_social_token_" ++ toString env.now)) ∧
    (JsVal.str ("demo_social_token_" ++ toString env.now)).truthy = true ∧
    (∃ user : JsVal, (APIService.socialLogin env provider role).getProp "user" = .ok user ∧
      user.getProp "role" = .ok (.str role) ∧
      user.getProp "email" = .ok (.str ("user@" ++ provider ++ ".com")) ∧
      user.getProp "avatar" =
        .ok (.str ("https://api.dicebear.com/7.x/avataaars/svg?seed=" ++ provider))) ∧
    (handleSocialLogin env provider w).out = .returned () ∧
    (handleSocialLogin env provider w).world.auth.userRole = .str w.auth.loginType ∧
    (APIService.socialLogin env provider w.auth.loginType).getProp "user" =
      .ok (handleSocialLogin env provider w).world.auth.currentUser := by
  have hsession : ∀ (fields : JsFields) (token : JsVal) (w0 : World)
      (k : Unit → World → Res Unit), (∀ a w1, (k a w1).world.auth = w1.auth) →
      ((setAuthenticatedUser env (.obj fields) token w0).andThen k).world.auth.currentUser
        = .obj fields ∧
      ((setAuthenticatedUser env (.obj fields) token w0).andThen k).world.auth.userRole
        = fields.lookup "role" := by
    intro fields token w0 k hk
    have h := sessionOf_setAuthenticatedUser env fields token w0
    have ha := andThen_frame (fun w => w.auth) (setAuthenticatedUser env (.obj fields) token w0)
      k hk
    simp only [] at ha
    rw [ha]
    exact ⟨congrArg (fun x => x.1) h, congrArg (fun x => x.2.1) h⟩
  refine ⟨rfl, rfl, ?_, ⟨_, rfl, ?_, ?_, ?_⟩, rfl, ?_, ?_⟩
  · have hne := append_ne_empty "demo_social_token_" (toString env.now) (by decide)
    simp [JsVal.truthy, hne]
  · simp [JsVal.getProp, JsFields.lookup]
  · simp [JsVal.getProp, JsFields.lookup]
  · simp [JsVal.getProp, JsFields.lookup]
  · unfold handleSocialLogin
    simp only [APIService.socialLogin, JsVal.getProp, JsFields.lookup, JsVal.truthy]
    simp only [if_true, if_false, reduceCtorEq, String.reduceEq]
    split
    · exact ((hsession _ _ _ _ (fun _ _ => rfl)).2).trans (by simp [JsFields.lookup, showToast])
    · exact ((hsession _ _ _ _ (fun _ _ => rfl)).2).trans (by simp [JsFields.lookup, showToast])
  · unfold handleSocialLogin
    simp only [APIService.socialLogin, JsVal.getProp, JsFields.lookup, JsVal.truthy]
    simp only [if_true, if_false, reduceCtorEq, String.reduceEq]
    split
    · exact congrArg (fun r => Except.ok r)
        (((hsession _ _ _ _ (fun _ _ => rfl)).1).trans (by simp [showToast])).symm
    · exact congrArg (fun r => Except.ok r)
        (((hsession _ _ _ _ (fun _ _ => rfl)).1).trans (by simp [showToast])).symm

/-- C24: `request` hands to `fetch` the configuration built from its options.
Without a `headers` option the request carries `Content-Type:
application/json`.  With a `headers` option the headers are those of the
option, with the `Authorization` header written when the client holds a
token, and the `Content-Type` is that of the option: the default is not merged
in.  The requests of `uploadAvatar` and `uploadFile`, which pass empty
headers, carry no `Content-Type`. -/
theorem request_content_type (env : Env) (endpoint formData : String) (o : Options)
    (h : List (String × String)) (w : World) :
    (request env endpoint o w).world.api.sent.head? =
      some (buildConfig w.api.token ("/api" ++ endpoint) o) ∧
    getHeader (buildConfig w.api.token ("/api" ++ endpoint) { o with headers := none }).headers
      "Content-Type" = some "application/json" ∧
    (buildConfig w.api.token ("/api" ++ endpoint) { o with headers := some h }).headers =
      (if w.api.token.truthy then setHeader h "Authorization" ("Bearer " ++ w.api.token.toStr)
        else h) ∧
    getHeader (buildConfig w.api.token ("/api" ++ endpoint) { o with headers := some h }).headers
      "Content-Type" = getHeader h "Content-Type" ∧
    (∃ req : Request, (APIService.uploadAvatar env formData w).world.api.sent.head? = some req ∧
      req.url = "/api" ++ "/users/me/avatar" ∧ req.body = some formData ∧
      getHeader req.headers "Content-Type" = none) ∧
    (∃ req : Request,
      (APIService.uploadFile env formData endpoint w).world.api.sent.head? = some req ∧
      req.url = "/api" ++ endpoint ∧ req.body = some formData ∧
      getHeader req.headers "Content-Type" = none) := by
  have hct : ("Content-Type" : String) ≠ "Authorization" := by decide
  have hsome : ∀ (url : String) (o' : Options) (h' : List (String × String)),
      getHeader (buildConfig w.api.token url { o' with headers := some h' }).headers
        "Content-Type" = getHeader h' "Content-Type" := by
    intro url o' h'
    unfold buildConfig
    cases ht : w.api.token.truthy with
    | true =>
      simp only [if_true, Option.getD_some]
      exact getHeader_setHeader_ne _ _ _ _ hct
    | false => rfl
  refine ⟨by rw [request_world]; rfl, ?_, rfl, hsome _ _ _,
    ⟨buildConfig w.api.token ("/api" ++ "/users/me/avatar")
      { method := some "POST", headers := some [], body := some formData }, ?_, rfl, rfl, ?_⟩,
    ⟨buildConfig w.api.token ("/api" ++ endpoint)
      { method := some "POST", headers := some [], body := some formData }, ?_, rfl, rfl, ?_⟩⟩
  · unfold buildConfig
    cases ht : w.api.token.truthy with
    | true =>
      simp only [if_true, Option.getD_none]
      rw [getHeader_setHeader_ne _ _ _ _ hct]
      rfl
    | false => rfl
  · unfold APIService.uploadAvatar
    rw [request_world]
    rfl
  · exact hsome _ { method := some "POST", headers := none, body := some formData } []
  · unfold APIService.uploadFile
    rw [request_world]
    rfl
  · exact hsome _ { method := some "POST", headers := none, body := some formData } []

/-- C25, evaluated on the code: `setAuthenticatedUser` calls `updateAuthUI`
before `updateNavigation`.  For `staffRecord`, an identity without names and
without avatar, `updateAuthUI` throws at `firstName[0]`: the session is that
of a staff member and the menus are as they were before, the public menu from
`startWorld` and the student menu from `studentWorld`; the same happens in
`handleLogin` when the login is answered with that identity.  What does hold:
after `updateNavigation` the staff menu alone is visible when `userRole` is
`staff` and the student menu alone otherwise, in every world; so it is after
a call of `setAuthenticatedUser` that returns; after `logout` the public menu
alone is visible, in every world. -/
theorem setAuthenticatedUser_throw_keeps_menus :
    (∀ w : World, visibleMenus (updateNavigation w).ui =
      (if w.auth.userRole = .str "staff" then ["staffNavMenu"] else ["studentNavMenu"])) ∧
    (∀ (env : Env) (w : World), visibleMenus (logout env w).world.ui = ["publicNavMenu"]) ∧
    (∀ (env : Env) (user token : JsVal) (w : World),
      (setAuthenticatedUser env user token w).out = .returned () →
      user.getProp "role" = .ok (setAuthenticatedUser env user token w).world.auth.userRole ∧
      visibleMenus (setAuthenticatedUser env user token w).world.ui =
        (if (setAuthenticatedUser env user token w).world.auth.userRole = .str "staff"
          then ["staffNavMenu"] else ["studentNavMenu"])) ∧
    visibleMenus startWorld.ui = ["publicNavMenu"] ∧
    (setAuthenticatedUser acceptingEnv staffRecord (.str "tok3") startWorld).out =
      .threw "Cannot read properties of undefined (reading '0')" ∧
    (setAuthenticatedUser acceptingEnv staffRecord (.str "tok3") startWorld).world.auth.userRole
      = .str "staff" ∧
    isAuthenticated (setAuthenticatedUser acceptingEnv staffRecord (.str "tok3")
      startWorld).world = true ∧
    getAuthToken (setAuthenticatedUser acceptingEnv staffRecord (.str "tok3")
      startWorld).world = some "tok3" ∧
    visibleMenus (setAuthenticatedUser acceptingEnv staffRecord (.str "tok3")
      startWorld).world.ui = ["publicNavMenu"] ∧
    (setAuthenticatedUser acceptingEnv staffRecord (.str "tok3") studentWorld).world.auth.userRole
      = .str "staff" ∧
    visibleMenus (setAuthenticatedUser acceptingEnv staffRecord (.str "tok3")
      studentWorld).world.ui = ["studentNavMenu"] ∧
    (handleLogin staffLoginEnv "carol@example.org" "secret" false startWorld).world.auth.userRole
      = .str "staff" ∧
    getAuthToken (handleLogin staffLoginEnv "carol@example.org" "secret" false
      startWorld).world = some "tok3" ∧
    (handleLogin staffLoginEnv "carol@example.org" "secret" false startWorld).world.ui.toasts
      = [("Cannot read properties of undefined (reading '0')", "error")] ∧
    visibleMenus (handleLogin staffLoginEnv "carol@example.org" "secret" false
      startWorld).world.ui = ["publicNavMenu"] := by
  refine ⟨fun w => (updateNavigation_menus w).1, fun env w => (logoutLocal_frame _).2.2.2, ?_,
    by decide, by decide, by decide, by decide, by decide, by decide, by decide, by decide,
    by decide, by decide, by decide, by decide⟩
  intro env user token w hret
  obtain ⟨w4, hw, hrole⟩ := setAuthenticatedUser_returned env user token w hret
  rw [hw, (setupRealtime_frame env token _).1, (setupRealtime_frame env token _).2,
    (updateNavigation_menus w4).1, (updateNavigation_menus w4).2]
  exact ⟨hrole, rfl⟩

/-- C26, evaluated on the code.  After the social login from `startWorld` the
persisted token is the new one and the client holds none: `socialLogin` does
not write `this.token`, and the next request goes out without a bearer token.
After the logout of `studentWorld` on `emptyBodyEnv`, whose answer to the
logout request makes `request` throw, the session is anonymous and the client
still holds `tok`: the next request carries it. -/
theorem client_token_out_of_step :
    getAuthToken (handleSocialLogin acceptingEnv "google" startWorld).world =
      some "demo_social_token_1700000000000" ∧
    isAuthenticated (handleSocialLogin acceptingEnv "google" startWorld).world = true ∧
    (handleSocialLogin acceptingEnv "google" startWorld).world.api.token = .null ∧
    getHeader (buildConfig (handleSocialLogin acceptingEnv "google" startWorld).world.api.token
      ("/api" ++ "/students/dashboard") noOptions).headers "Authorization" = none ∧
    (APIService.logout emptyBodyEnv studentWorld).out =
      .threw "Unexpected end of JSON input" ∧
    isAuthenticated (logout emptyBodyEnv studentWorld).world = false ∧
    getAuthToken (logout emptyBodyEnv studentWorld).world = none ∧
    (logout emptyBodyEnv studentWorld).world.api.token = .str "tok" ∧
    getHeader (buildConfig (logout emptyBodyEnv studentWorld).world.api.token
      ("/api" ++ "/challenges") noOptions).headers "Authorization" = some "Bearer tok" ∧
    (logout acceptingEnv studentWorld).world.api.token = .null := by
  refine ⟨by decide, by decide, by decide, by decide, by decide, by decide, by decide,
    by decide, by decide, by decide⟩

/-- C27, evaluated on the code: against `unauthorizedEnv`, which answers
every request with status 401 and no message body, the chain does not end.
The request of `studentWorld` for its notifications fails as unauthorized and
starts one logout.  That logout sends the request to `/auth/logout`, which
fails as unauthorized too and starts the next logout.  For every `n`, once
`n` pending calls have run, `n` logout requests have been sent on top of the
one failing request, and a logout is pending again. -/
theorem forced_logout_chain_unbounded (n : Nat) :
    (request unauthorizedEnv "/notifications" noOptions studentWorld).out =
      .threw "Session expired. Please log in again." ∧
    (request unauthorizedEnv "/notifications" noOptions studentWorld).world.pending =
      [Task.logout] ∧
    (settle unauthorizedEnv n
      (request unauthorizedEnv "/notifications" noOptions studentWorld).world).pending =
      [Task.logout] ∧
    (settle unauthorizedEnv n
      (request unauthorizedEnv "/notifications" noOptions studentWorld).world).api.sent.length =
      n + 1 ∧
    logoutRequests (settle unauthorizedEnv n
      (request unauthorizedEnv "/notifications" noOptions studentWorld).world) = n := by
  obtain ⟨h1, h2, h3⟩ := settle_unauthorizedEnv n
    (request unauthorizedEnv "/notifications" noOptions studentWorld).world (by decide)
    (by decide)
  refine ⟨by decide, by decide, h1, ?_, ?_⟩
  · rw [h2]
    have : (request unauthorizedEnv "/notifications" noOptions studentWorld).world.api.sent.length
        = 1 := by decide
    omega
  · rw [h3]
    have : logoutRequests (request unauthorizedEnv "/notifications" noOptions studentWorld).world
        = 0 := by decide
    omega

/-- C28: for every page id, a page that requires the staff role requires
authentication; `requiresAuth` holds on the ids of its list and on no other,
and so does `requiresStaffRole`; both are false on `home`, `join` and
`challenges`. -/
theorem staff_pages_require_auth (p : String) :
    (requiresStaffRole p = true → requiresAuth p = true) ∧
    (requiresAuth p = true ↔ p ∈ authPages) ∧
    (requiresStaffRole p = true ↔ p ∈ staffPages) ∧
    (p ∉ authPages → requiresAuth p = false ∧ requiresStaffRole p = false) ∧
    requiresAuth "home" = false ∧ requiresStaffRole "home" = false ∧
    requiresAuth "join" = false ∧ requiresStaffRole "join" = false ∧
    requiresAuth "challenges" = false ∧ requiresStaffRole "challenges" = false := by
  have hsub : ∀ q ∈ staffPages, q ∈ authPages := by decide
  have hauth : requiresAuth p = true ↔ p ∈ authPages := by
    show authPages.contains p = true ↔ _
    simp
  have hstaff : requiresStaffRole p = true ↔ p ∈ staffPages := by
    show staffPages.contains p = true ↔ _
    simp
  refine ⟨fun h => hauth.2 (hsub p (hstaff.1 h)), hauth, hstaff, ?_, by decide, by decide,
    by decide, by decide, by decide, by decide⟩
  intro hp
  constructor
  · cases h : requiresAuth p with
    | false => rfl
    | true => exact absurd (hauth.1 h) hp
  · cases h : requiresStaffRole p with
    | false => rfl
    | true => exact absurd (hsub p (hstaff.1 h)) hp

/-- C28 at concrete inputs: the staff page `analytics`, and the id `merch`,
which is in neither list. -/
theorem staff_pages_require_auth_witness :
    requiresStaffRole "analytics" = true ∧ requiresAuth "analytics" = true ∧
    "merch" ∉ authPages ∧ requiresAuth "merch" = false ∧ requiresStaffRole "merch" = false :=
  ⟨by decide, (staff_pages_require_auth "analytics").1 (by decide), by decide,
    (staff_pages_require_auth "merch").2.2.2.1 (by decide)⟩

/-- C29, evaluated on the code: the pattern `theme-\w+` of `setGlowMode` ends
at the hyphen of `theme-high-glow`.  From `startWorld`, whose body has no
class, `setGlowMode('high-glow')` followed by `setGlowMode('accessible')`
leaves the body with the classes `-glow` and `theme-accessible`: the rest of
the theme class before stays.  A third call with `high-glow` leaves `-glow`
next to `theme-high-glow`.  The field `glowMode` and the persisted entry hold
the last mode, and `setupGlowMode` applies it. -/
theorem setGlowMode_leaves_fragment :
    startWorld.theme.bodyClass = "" ∧
    (setGlowMode "high-glow" startWorld).out = .returned () ∧
    (setGlowMode "high-glow" startWorld).world.theme.bodyClass = "theme-high-glow" ∧
    removeThemeMatch "theme-high-glow".toList = "-glow".toList ∧
    (setGlowMode "accessible" (setGlowMode "high-glow" startWorld).world).out = .returned () ∧
    (setGlowMode "accessible" (setGlowMode "high-glow" startWorld).world).world.theme.bodyClass
      = "-glow theme-accessible" ∧
    classTokens (setGlowMode "accessible"
      (setGlowMode "high-glow" startWorld).world).world.theme.bodyClass
      = ["-glow", "theme-accessible"] ∧
    (setGlowMode "accessible" (setGlowMode "high-glow" startWorld).world).world.theme.glowMode
      = "accessible" ∧
    getItem (setGlowMode "accessible" (setGlowMode "high-glow" startWorld).world).world.storage
      "rtms-glow-mode" = some "accessible" ∧
    (setGlowMode "high-glow" (setGlowMode "accessible"
      (setGlowMode "high-glow" startWorld).world).world).world.theme.bodyClass
      = "-glow theme-high-glow" ∧
    (setGlowMode "accessible" (setGlowMode "redesign" startWorld).world).world.theme.bodyClass
      = "theme-accessible" ∧
    (setupGlowMode (setGlowMode "accessible"
      (setGlowMode "high-glow" startWorld).world).world).world.theme.glowMode = "accessible" := by
  refine ⟨by decide, by decide, by decide, by decide, by decide, by decide, by decide,
    by decide, by decide, by decide, by decide, by decide⟩

set_option maxRecDepth 100000 in
/-- C30: `generateCalendarDays` is the cells of the days 1 to 31 one after the
other, 31 cells in increasing order of the day.  The cell of a day shows the
number of the day; its class holds `today` for day 16 and for no other day,
and `has-event` for the days 18, 22 and 25 and for no other day; these three
cells, and no other, hold an event pill. -/
theorem generateCalendarDays_cells :
    generateCalendarDays = String.join ((List.range' 1 31).map calendarDay) ∧
    List.range' 1 31 = [1, 2, 3, 4, 5, 6, 7, 8, 9, 10, 11, 12, 13, 14, 15, 16, 17, 18, 19, 20,
      21, 22, 23, 24, 25, 26, 27, 28, 29, 30, 31] ∧
    ((List.range' 1 31).map calendarDay).length = 31 ∧
    (∀ i : Nat, calendarDay i =
      "<div class=\"" ++ ("calendar-day " ++ (if i = 16 then "today" else "") ++ " " ++
        (if i = 18 ∨ i = 22 ∨ i = 25 then "has-event" else "")) ++ "\">" ++ toString i ++
        (if i = 18 ∨ i = 22 ∨ i = 25 then "<div class=\"event-pill\"></div>" else "") ++
        "</div>") ∧
    (List.range' 1 31).filter (fun i => includes (calendarDay i) "today") = [16] ∧
    (List.range' 1 31).filter (fun i => includes (calendarDay i) "has-event") = [18, 22, 25] ∧
    (List.range' 1 31).filter (fun i => includes (calendarDay i) "event-pill") = [18, 22, 25] := by
  refine ⟨?_, by decide, by decide, ?_, by decide, by decide, by decide⟩
  · unfold generateCalendarDays String.join
    rw [List.foldl_map]
  · intro i
    unfold calendarDay
    by_cases h18 : i = 18
    · subst h18; rfl
    by_cases h22 : i = 22
    · subst h22; rfl
    by_cases h25 : i = 25
    · subst h25; rfl
    by_cases h16 : i = 16
    · subst h16; rfl
    simp [h16, h18, h22, h25]

end RTMS
